import Mathlib

/-!
Shallow embedding of the tool-calling orchestration core of the MCP-Claude
repository (src/trial.py, src/Marketingapp.py, src/V1.streamlit.py).

Each application defines a static tool catalog (`TOOLS`), a mock tool
executor (`get_mock_data`), and a bounded loop that submits a conversation
to a remote model, executes the tool calls the model requests, folds the
results back into the message list and resubmits until the model stops
requesting tools or an iteration cap is reached.

Modelling conventions:
- Python dicts are association lists in insertion order (Python dict literals
  have unique keys and preserve insertion order).
- JSON-able Python values are the `Json` inductive below; numbers are `Rat`
  (both Python ints and floats appear in the fixtures).
- The remote model (`client.messages.create`) is an oracle
  `respond : Nat → Except String ModelResponse`: the k-th API call of a cycle
  returns `respond k`; `.error` models a raised exception (transport error,
  auth failure, ...), which the source handles with try/except.
- `json.dumps(result)` serialisation of a tool payload is abstracted as the
  payload itself (no claim inspects the wire encoding, only correlation ids
  and payload structure).
- Streamlit rendering (st.write, charts, spinners, CSS) is presentation and
  is not part of the state; chart construction is modelled as the data
  series handed to the charting library (`Figure`/`Trace` below).
-/

/-- JSON-like values: the shape of tool payloads, tool arguments and schema
declarations in all three applications. -/
inductive Json where
  | null
  | bool (b : Bool)
  | num (q : Rat)
  | str (s : String)
  | arr (xs : List Json)
  | obj (fields : List (String × Json))

/-- Python `d.get(k, default)` on a dict modelled as an association list:
first (unique) matching key, or the default. -/
def dget (l : List (String × Json)) (k : String) (d : Json) : Json :=
  match l with
  | [] => d
  | (k', v) :: rest => if k = k' then v else dget rest k d

/-- Field lookup inside a `Json.obj`; `none` when absent or not an object. -/
def getField (j : Json) (k : String) : Option Json :=
  match j with
  | .obj fs => lookupField fs k
  | _ => none
where
  lookupField : List (String × Json) → String → Option Json
    | [], _ => none
    | (k', v) :: rest, k => if k = k' then some v else lookupField rest k

/-- Python `j.get(k, d)` on a payload object. -/
def getFieldD (j : Json) (k : String) (d : Json) : Json :=
  match getField j k with
  | some v => v
  | none => d

/-- Key list of a JSON record (empty for a non-object). -/
def keysOf : Json → List String
  | .obj fs => fs.map (fun p => p.1)
  | _ => []

/-- Elements of a JSON array (empty for a non-array). -/
def asArr : Json → List Json
  | .arr xs => xs
  | _ => []

/-- Fields of a JSON object (empty for a non-object). -/
def objFields : Json → List (String × Json)
  | .obj fs => fs
  | _ => []

/-- Python truthiness of a JSON value (shallow: empty containers, zero, empty
string, `None` and `False` are falsy). -/
def jsonTruthy : Json → Bool
  | .null => false
  | .bool b => b
  | .num q => q != 0
  | .str s => !s.isEmpty
  | .arr xs => !xs.isEmpty
  | .obj fs => !fs.isEmpty

/-- Python truthiness of an optional argument dict (`if tool_input:` is false
both for `None` and for an empty dict). -/
def optDictTruthy : Option (List (String × Json)) → Bool
  | none => false
  | some d => !d.isEmpty

/-- Python `str(...)` of a JSON scalar, as used by f-string interpolation.
The tool schemas only ever put strings in the interpolated slots; container
renderings are not modelled. -/
def pyStr : Json → String
  | .str s => s
  | .num q => toString q
  | .bool b => if b then "True" else "False"
  | .null => "None"
  | .arr _ => ""
  | .obj _ => ""

/-- Python `s1 or s2` on strings: the empty string is falsy. -/
def pyOrString (a b : String) : String :=
  if a = "" then b else a

/-- Python `l[-n:]`: the most recent `n` elements of a list. -/
def lastN (n : Nat) (l : List α) : List α :=
  l.drop (l.length - n)

/-- One content block of a model response: either a text block (Python:
`hasattr(b, "text")`) or a tool-use block (Python: `b.type == "tool_use"`,
carrying `.id`, `.name`, `.input`). -/
inductive ContentBlock where
  | text (s : String)
  | toolUse (id : String) (name : String) (input : List (String × Json))

/-- Text of a text block, `none` for a tool-use block. -/
def ContentBlock.textOf : ContentBlock → Option String
  | .text s => some s
  | .toolUse _ _ _ => none

/-- One parsed tool-use block (a ToolInvocationRequest): correlation id,
tool name, arguments. -/
structure ToolUse where
  id : String
  name : String
  input : List (String × Json)

/-- Projection to a `ToolUse`, `none` for a text block. -/
def ContentBlock.toolUseOf : ContentBlock → Option ToolUse
  | .text _ => none
  | .toolUse i n inp => some ⟨i, n, inp⟩

/-- All tool-use blocks of a response content, in order (Python:
`[b for b in response.content if b.type == "tool_use"]`). -/
def toolUses (content : List ContentBlock) : List ToolUse :=
  content.filterMap ContentBlock.toolUseOf

/-- First tool-use block, if any (Python:
`next((b for b in response.content if b.type == "tool_use"), None)`). -/
def firstToolUse (content : List ContentBlock) : Option ToolUse :=
  (toolUses content).head?

/-- Whether a response content holds at least one tool-use block. -/
def hasToolUse (content : List ContentBlock) : Bool :=
  (firstToolUse content).isSome

/-- One model response: the stop reason and the content blocks. -/
structure ModelResponse where
  stop_reason : String
  content : List ContentBlock

/-- One ToolResult entry sent back to the model (Python:
`{"type": "tool_result", "tool_use_id": ..., "content": json.dumps(result)}`;
the serialised payload is kept structured). -/
structure ToolResultEntry where
  tool_use_id : String
  payload : Json

/-- Content of one message in the API conversation: a plain user text, the
raw content blocks of an assistant response, or a batch of tool results. -/
inductive MsgContent where
  | text (s : String)
  | blocks (bs : List ContentBlock)
  | results (rs : List ToolResultEntry)

/-- One message (Turn) of the API conversation. -/
structure Message where
  role : String
  content : MsgContent

/-- User message holding a plain question. -/
def Message.user (s : String) : Message := ⟨"user", .text s⟩

/-- Assistant message holding the raw response content
(Python: `{"role": "assistant", "content": response.content}`). -/
def Message.assistant (bs : List ContentBlock) : Message := ⟨"assistant", .blocks bs⟩

/-- User-role message holding a batch of tool results. -/
def Message.toolResults (rs : List ToolResultEntry) : Message := ⟨"user", .results rs⟩

/-- Correlation ids of all tool results carried by a message list, in order. -/
def toolResultIds (msgs : List Message) : List String :=
  msgs.flatMap (fun m =>
    match m.content with
    | .results rs => rs.map (fun r => r.tool_use_id)
    | _ => [])

/-- Number of tool results for a given correlation id in a message list. -/
def countToolResultsFor (msgs : List Message) (id : String) : Nat :=
  (toolResultIds msgs).count id

/-- One entry of the display chat log (`st.session_state.messages`); figures
and raw-data attachments are presentation and not modelled. -/
structure DMsg where
  role : String
  content : String

/-- One declared tool of a catalog (`TOOLS` entries: name, description,
JSON-schema for the arguments). -/
structure ToolSpec where
  name : String
  description : String
  input_schema : Json

/-- One trace of a chart: series name and the x/y data handed to the
charting library; colors and layout are presentation and not modelled. -/
structure Trace where
  name : String
  x : List Json
  y : List Json

/-- One chart: tab label, chart archetype and its traces. -/
structure Figure where
  label : String
  kind : String
  traces : List Trace

/-- Column extraction, `df[k]` on a data-frame built from JSON rows. -/
def col (rows : List Json) (k : String) : List Json :=
  rows.map (fun r => getFieldD r k Json.null)

/-- Uniform shape of a record list: every row is an object carrying the same
key set (in the same order) as the first row. -/
def rowsUniform : List Json → Bool
  | [] => true
  | r :: rs =>
      (match r with | .obj _ => true | _ => false) &&
      rs.all (fun r2 =>
        (match r2 with | .obj _ => true | _ => false) && keysOf r2 == keysOf r)

/-- Uniform-data contract of a payload: when a `data` field is present it is
an array of uniformly-shaped records. -/
def uniformDataB (j : Json) : Bool :=
  match getField j "data" with
  | none => true
  | some (.arr rows) => rowsUniform rows
  | some _ => false

/-- Whether a payload object carries a given field at all. -/
def hasField (j : Json) (k : String) : Bool :=
  (getField j k).isSome

/-- Identity field of the first `data` row of a payload. -/
def firstDataRowField (payload : Json) (k : String) : Option Json :=
  match getField payload "data" with
  | some (.arr (row :: _)) => getField row k
  | _ => none

/-- Model oracle that never fails, built from a pure response stream. -/
def okStream (resp : Nat → ModelResponse) : Nat → Except String ModelResponse :=
  fun n => .ok (resp n)

namespace V1

/-- Tool catalog of V1.streamlit.py (`TOOLS`, lines 77-86). -/
def TOOLS : List ToolSpec := [
  ⟨"q1_pages_never_viewed", "Pages with no views in past 90 days",
    .obj [("type", .str "object"),
          ("properties", .obj [("days_back", .obj [("type", .str "integer"), ("default", .num 90)])]),
          ("required", .arr [])]⟩,
  ⟨"q2_forms_high_error_rate", "Forms with high error rates",
    .obj [("type", .str "object"),
          ("properties", .obj [("min_error_rate", .obj [("type", .str "integer"), ("default", .num 25)])]),
          ("required", .arr [])]⟩,
  ⟨"q3_high_bounce_pages", "Pages with high bounce rates",
    .obj [("type", .str "object"),
          ("properties", .obj [("min_bounce_rate", .obj [("type", .str "integer"), ("default", .num 50)]),
                               ("min_sessions", .obj [("type", .str "integer"), ("default", .num 100)])]),
          ("required", .arr [])]⟩,
  ⟨"q4_high_engagement_accounts", "Accounts with high engagement",
    .obj [("type", .str "object"),
          ("properties", .obj [("min_engagement_score", .obj [("type", .str "integer"), ("default", .num 75)]),
                               ("stage", .obj [("type", .str "string"),
                                               ("enum", .arr [.str "Awareness", .str "Consideration", .str "Decision"])])]),
          ("required", .arr [])]⟩,
  ⟨"q5_converted_accounts", "Converted accounts and their paths",
    .obj [("type", .str "object"),
          ("properties", .obj [("segment", .obj [("type", .str "string"),
                                                 ("enum", .arr [.str "DCIO", .str "Enterprise", .str "Mid-Market", .str "Small Business"])]),
                               ("min_deal_value", .obj [("type", .str "integer"), ("default", .num 0)])]),
          ("required", .arr [])]⟩,
  ⟨"q6_paid_media_data", "Paid media performance",
    .obj [("type", .str "object"),
          ("properties", .obj [("platform", .obj [("type", .str "string"),
                                                  ("enum", .arr [.str "LinkedIn", .str "Google"])]),
                               ("metric", .obj [("type", .str "string"),
                                                ("enum", .arr [.str "roi", .str "cpc", .str "conversion_rate"]),
                                                ("default", .str "roi")])]),
          ("required", .arr [])]⟩,
  ⟨"q7_account_conversion_tracking", "Account conversion tracking",
    .obj [("type", .str "object"),
          ("properties", .obj [("top_n", .obj [("type", .str "integer"), ("default", .num 5)])]),
          ("required", .arr [])]⟩,
  ⟨"q8_exit_pages", "Exit pages performance",
    .obj [("type", .str "object"),
          ("properties", .obj [("page_type", .obj [("type", .str "string"),
                                                   ("enum", .arr [.str "Product", .str "Solution", .str "Resource", .str "Conversion", .str "Archived"])])]),
          ("required", .arr [])]⟩]

/-- Mock data dict of V1.streamlit.py `get_mock_data` (lines 31-73): each
tool maps to a plain list of rows. -/
def mock : List (String × Json) := [
  ("q1_pages_never_viewed", .arr [
    .obj [("page_url", .str "/pricing"), ("page_type", .str "Product"), ("views", .num 0)],
    .obj [("page_url", .str "/case-study-old"), ("page_type", .str "Resource"), ("views", .num 0)],
    .obj [("page_url", .str "/discontinued-feature"), ("page_type", .str "Product"), ("views", .num 0)],
    .obj [("page_url", .str "/legacy-blog"), ("page_type", .str "Resource"), ("views", .num 0)]]),
  ("q2_forms_high_error_rate", .arr [
    .obj [("form_id", .str "contact_form_v1"), ("attempts", .num 245), ("completed", .num 45), ("error_rate", .num 81.6)],
    .obj [("form_id", .str "newsletter_signup"), ("attempts", .num 1200), ("completed", .num 850), ("error_rate", .num 29.2)],
    .obj [("form_id", .str "demo_request"), ("attempts", .num 450), ("completed", .num 320), ("error_rate", .num 28.9)]]),
  ("q3_high_bounce_pages", .arr [
    .obj [("entry_page", .str "/blog/outdated-post"), ("bounce_rate", .num 78.5), ("sessions", .num 150)],
    .obj [("entry_page", .str "/pricing-old"), ("bounce_rate", .num 72.3), ("sessions", .num 230)],
    .obj [("entry_page", .str "/temp-campaign"), ("bounce_rate", .num 68.9), ("sessions", .num 102)]]),
  ("q4_high_engagement_accounts", .arr [
    .obj [("company_name", .str "TechCorp Inc"), ("account_stage", .str "Consideration"), ("avg_score", .num 92.5), ("signals", .num 18)],
    .obj [("company_name", .str "Enterprise Solutions"), ("account_stage", .str "Decision"), ("avg_score", .num 88.3), ("signals", .num 15)],
    .obj [("company_name", .str "Growth Ventures"), ("account_stage", .str "Awareness"), ("avg_score", .num 85.2), ("signals", .num 12)]]),
  ("q5_converted_accounts", .arr [
    .obj [("account_name", .str "Fortune 500 Corp"), ("deal_value", .num 250000), ("entry_page", .str "/solutions/enterprise"), ("stage", .str "Closed Won")],
    .obj [("account_name", .str "Tech Startup LLC"), ("deal_value", .num 45000), ("entry_page", .str "/product-demo"), ("stage", .str "Closed Won")],
    .obj [("account_name", .str "Industries Global"), ("deal_value", .num 120000), ("entry_page", .str "/case-studies"), ("stage", .str "Closed Won")]]),
  ("q6_paid_media_data", .arr [
    .obj [("campaign_name", .str "Q4 LinkedIn Campaign"), ("platform", .str "LinkedIn"), ("spend", .num 15000), ("clicks", .num 2300), ("conv_rate", .num 8.5)],
    .obj [("campaign_name", .str "Google Search - Enterprise"), ("platform", .str "Google"), ("spend", .num 22000), ("clicks", .num 5600), ("conv_rate", .num 12.3)],
    .obj [("campaign_name", .str "LinkedIn Retargeting"), ("platform", .str "LinkedIn"), ("spend", .num 8500), ("clicks", .num 1200), ("conv_rate", .num 15.2)]]),
  ("q7_account_conversion_tracking", .arr [
    .obj [("account_name", .str "Global Tech Enterprises"), ("amount", .num 500000), ("sessions", .num 47)],
    .obj [("account_name", .str "Digital Innovation Corp"), ("amount", .num 275000), ("sessions", .num 32)],
    .obj [("account_name", .str "Cloud Systems Inc"), ("amount", .num 180000), ("sessions", .num 28)]]),
  ("q8_exit_pages", .arr [
    .obj [("page_url", .str "/pricing"), ("page_type", .str "Conversion"), ("exits", .num 450)],
    .obj [("page_url", .str "/solutions"), ("page_type", .str "Solution"), ("exits", .num 320)],
    .obj [("page_url", .str "/resources/whitepaper"), ("page_type", .str "Resource"), ("exits", .num 210)]])]

/-- Executor of V1.streamlit.py (`get_mock_data`, lines 29-74):
`mock_data.get(tool_name, [{"status": "executed"}])`. -/
def get_mock_data (tool_name : String) : Json :=
  dget mock tool_name (.arr [.obj [("status", .str "executed")]])

end V1

namespace V1

/-- Mutable locals of the V1 tool-use loop (lines 165-193): the API message
list, the iteration counter, and (instrumentation) every message list
submitted to the model so far. -/
structure LoopSt where
  messages : List Message
  iteration : Nat
  submissions : List (List Message)

/-- Messages appended by one V1 loop iteration (lines 185-186): the
assistant turn and ONE tool result — for the single handled block only. -/
def stepMessages (messages : List Message) (r : ModelResponse) (tu : ToolUse) :
    List Message :=
  messages ++ [Message.assistant r.content, Message.toolResults [⟨tu.id, get_mock_data tu.name⟩]]

/-- Tool-use loop of V1.streamlit.py (lines 165-193):
`while response.stop_reason == "tool_use" and iteration < 5:` with
`iteration += 1` first, then only the FIRST tool-use block handled
(`next(...)`, `if not tool_use: break`), one tool result appended, and a
fresh model call. `fuel` is the remaining iteration budget `5 - iteration`;
`c` indexes the next model call in the oracle. -/
def loopGo (respond : Nat → Except String ModelResponse) :
    Nat → Nat → ModelResponse → LoopSt → Except String (ModelResponse × LoopSt)
  | 0, _, r, s => .ok (r, s)
  | fuel + 1, c, r, s =>
    if r.stop_reason = "tool_use" then
      match firstToolUse r.content with
      | none => .ok (r, { s with iteration := s.iteration + 1 })
      | some tu =>
        let msgs := stepMessages s.messages r tu
        match respond c with
        | .error e => .error e
        | .ok r2 =>
            loopGo respond fuel (c + 1) r2
              ⟨msgs, s.iteration + 1, s.submissions ++ [msgs]⟩
    else .ok (r, s)

/-- Final-answer extraction of V1.streamlit.py (line 196): the text of the
FIRST block having a `text` attribute, defaulting to "No response" when no
block has one. -/
def extractAnswer (content : List ContentBlock) : String :=
  match (content.filterMap ContentBlock.textOf).head? with
  | some t => t
  | none => "No response"

/-- Result of one V1 orchestration cycle. -/
structure Out where
  final_answer : String
  iteration : Nat
  messages : List Message
  submissions : List (List Message)

/-- One orchestration cycle of V1.streamlit.py (lines 150-196, inside the
try block): a fresh message list holding only the current question, the
initial model call, the tool-use loop, then answer extraction. -/
def cycle (respond : Nat → Except String ModelResponse) (user_input : String) :
    Except String Out :=
  let messages := [Message.user user_input]
  match respond 0 with
  | .error e => .error e
  | .ok r0 =>
    match loopGo respond 5 1 r0 ⟨messages, 0, [messages]⟩ with
    | .error e => .error e
    | .ok (rF, s) =>
        .ok ⟨extractAnswer rF.content, s.iteration, s.messages, s.submissions⟩

/-- Session state of V1.streamlit.py relevant to the conversation:
`st.session_state.messages` (the display chat log). -/
structure Session where
  messages : List DMsg

/-- Input processing of V1.streamlit.py (lines 139-205): with an API key,
the user turn is appended to the session log BEFORE the try block; on
success the assistant turn is appended; an exception leaves the session
with the dangling user turn (only `st.error` runs). -/
def processInput (respond : Nat → Except String ModelResponse)
    (api_key : String) (pre : Session) (user_input : String) : Session :=
  if api_key = "" then pre
  else
    let messages1 := pre.messages ++ [⟨"user", user_input⟩]
    match cycle respond user_input with
    | .error _ => ⟨messages1⟩
    | .ok out => ⟨messages1 ++ [⟨"assistant", out.final_answer⟩]⟩

/-- Iteration count of a cycle result (0 for a failed cycle). -/
def itersOf : Except String Out → Nat
  | .ok o => o.iteration
  | .error _ => 0

/-- Submission log of a cycle result. -/
def subsOf : Except String Out → List (List Message)
  | .ok o => o.submissions
  | .error _ => []

/-- Final answer of a cycle result. -/
def answerOf : Except String Out → Option String
  | .ok o => some o.final_answer
  | .error _ => none

end V1

/-- Python `tool_input.get(k, d) if tool_input else d` for an optional dict
(`None` and the empty dict both fall back to the default). -/
def optGet (tool_input : Option (List (String × Json))) (k : String) (d : Json) : Json :=
  if optDictTruthy tool_input then dget (tool_input.getD []) k d else d

namespace Trial

/-- Tool catalog of trial.py (`TOOLS`, lines 66-80). -/
def TOOLS : List ToolSpec := [
  ⟨"get_b2b_marketing_summary", "Get B2B marketing summary",
    .obj [("type", .str "object"),
          ("properties", .obj [("time_period", .obj [("type", .str "string")]),
                               ("segment", .obj [("type", .str "string")])])]⟩,
  ⟨"get_lead_metrics", "Get lead metrics by segment",
    .obj [("type", .str "object"),
          ("properties", .obj [("segment", .obj [("type", .str "string")]),
                               ("lead_source", .obj [("type", .str "string")])])]⟩,
  ⟨"get_intent_signals", "Get 6sense intent signals",
    .obj [("type", .str "object"),
          ("properties", .obj [("segment", .obj [("type", .str "string")])])]⟩,
  ⟨"get_account_360_view", "Get account 360 view",
    .obj [("type", .str "object"),
          ("properties", .obj [("account_name", .obj [("type", .str "string")])])]⟩,
  ⟨"get_conversion_funnel", "Get conversion funnel",
    .obj [("type", .str "object"),
          ("properties", .obj [("segment", .obj [("type", .str "string")])])]⟩,
  ⟨"get_high_bounce_pages", "Get high bounce pages",
    .obj [("type", .str "object"),
          ("properties", .obj [("min_bounce_rate", .obj [("type", .str "integer")])])]⟩,
  ⟨"get_pages_to_sunset", "Get pages to sunset",
    .obj [("type", .str "object"), ("properties", .obj [])]⟩,
  ⟨"get_accounts_to_reach_out", "Get accounts to reach out",
    .obj [("type", .str "object"),
          ("properties", .obj [("priority", .obj [("type", .str "string")])])]⟩,
  ⟨"get_paid_media_performance", "Get paid media performance",
    .obj [("type", .str "object"),
          ("properties", .obj [("platform", .obj [("type", .str "string")])])]⟩,
  ⟨"get_channel_attribution", "Get channel attribution",
    .obj [("type", .str "object"), ("properties", .obj [])]⟩,
  ⟨"detect_marketing_anomalies", "Detect anomalies",
    .obj [("type", .str "object"), ("properties", .obj [])]⟩,
  ⟨"generate_campaign_brief", "Generate campaign brief",
    .obj [("type", .str "object"),
          ("properties", .obj [("target_segment", .obj [("type", .str "string")])])]⟩,
  ⟨"get_pathfactory_engagement", "Get PathFactory engagement",
    .obj [("type", .str "object"), ("properties", .obj [])]⟩]

/-- Mock data dict of trial.py `get_mock_data` (lines 84-145), built from the
optional `tool_input` (the account-360 and campaign-brief entries read the
requested entity out of it). -/
def mock (tool_input : Option (List (String × Json))) : List (String × Json) := [
  ("get_b2b_marketing_summary", .obj [
    ("data", .arr [
      .obj [("metric", .str "Total Leads"), ("value", .num 1245), ("change", .num 12.5), ("trend", .str "up")],
      .obj [("metric", .str "MQLs"), ("value", .num 425), ("change", .num 8.3), ("trend", .str "up")],
      .obj [("metric", .str "SQLs"), ("value", .num 156), ("change", .num 15.2), ("trend", .str "up")],
      .obj [("metric", .str "Pipeline"), ("value", .num 18500000), ("change", .num 18.5), ("trend", .str "up")],
      .obj [("metric", .str "Win Rate"), ("value", .num 31.5), ("change", .num (-2.1)), ("trend", .str "down")]]),
    ("trend_data", .arr [
      .obj [("month", .str "Jul"), ("leads", .num 180), ("mqls", .num 58)],
      .obj [("month", .str "Aug"), ("leads", .num 195), ("mqls", .num 65)],
      .obj [("month", .str "Sep"), ("leads", .num 210), ("mqls", .num 72)],
      .obj [("month", .str "Oct"), ("leads", .num 245), ("mqls", .num 85)],
      .obj [("month", .str "Nov"), ("leads", .num 268), ("mqls", .num 92)],
      .obj [("month", .str "Dec"), ("leads", .num 147), ("mqls", .num 53)]]),
    ("channel_breakdown", .arr [
      .obj [("channel", .str "Email"), ("leads", .num 312), ("pct", .num 25)],
      .obj [("channel", .str "Organic"), ("leads", .num 289), ("pct", .num 23)],
      .obj [("channel", .str "Paid Search"), ("leads", .num 234), ("pct", .num 19)],
      .obj [("channel", .str "Social"), ("leads", .num 178), ("pct", .num 14)],
      .obj [("channel", .str "Webinar"), ("leads", .num 145), ("pct", .num 12)],
      .obj [("channel", .str "Referral"), ("leads", .num 87), ("pct", .num 7)]]),
    ("segment_breakdown", .arr [
      .obj [("segment", .str "DCIO"), ("leads", .num 399), ("mqls", .num 167), ("rate", .num 41.9)],
      .obj [("segment", .str "Enterprise"), ("leads", .num 501), ("mqls", .num 139), ("rate", .num 27.7)],
      .obj [("segment", .str "Mid-Market"), ("leads", .num 345), ("mqls", .num 119), ("rate", .num 34.5)]])]),
  ("get_lead_metrics", .obj [
    ("data", .arr [
      .obj [("segment", .str "DCIO"), ("source", .str "Website"), ("leads", .num 245), ("mqls", .num 89), ("rate", .num 36.3), ("avg_score", .num 72.5)],
      .obj [("segment", .str "DCIO"), ("source", .str "Webinar"), ("leads", .num 156), ("mqls", .num 78), ("rate", .num 50.0), ("avg_score", .num 78.2)],
      .obj [("segment", .str "Enterprise"), ("source", .str "Content"), ("leads", .num 312), ("mqls", .num 94), ("rate", .num 30.1), ("avg_score", .num 65.8)],
      .obj [("segment", .str "Enterprise"), ("source", .str "Paid Media"), ("leads", .num 189), ("mqls", .num 45), ("rate", .num 23.8), ("avg_score", .num 58.3)],
      .obj [("segment", .str "Mid-Market"), ("source", .str "Website"), ("leads", .num 203), ("mqls", .num 58), ("rate", .num 28.6), ("avg_score", .num 61.3)]]),
    ("quality_dist", .arr [
      .obj [("label", .str "Hot"), ("count", .num 89), ("pct", .num 7)],
      .obj [("label", .str "Warm"), ("count", .num 312), ("pct", .num 25)],
      .obj [("label", .str "Nurture"), ("count", .num 456), ("pct", .num 37)],
      .obj [("label", .str "Cold"), ("count", .num 278), ("pct", .num 22)],
      .obj [("label", .str "Unqualified"), ("count", .num 110), ("pct", .num 9)]]),
    ("weekly", .arr [
      .obj [("week", .str "W1"), ("leads", .num 285), ("mqls", .num 98)],
      .obj [("week", .str "W2"), ("leads", .num 312), ("mqls", .num 105)],
      .obj [("week", .str "W3"), ("leads", .num 298), ("mqls", .num 102)],
      .obj [("week", .str "W4"), ("leads", .num 350), ("mqls", .num 120)]])]),
  ("get_intent_signals", .obj [
    ("data", .arr [
      .obj [("company", .str "Goldman Sachs"), ("segment", .str "DCIO"), ("intent", .num 92), ("stage", .str "Decision"), ("signals", .num 12)],
      .obj [("company", .str "JPMorgan Chase"), ("segment", .str "DCIO"), ("intent", .num 88), ("stage", .str "Decision"), ("signals", .num 9)],
      .obj [("company", .str "Vanguard"), ("segment", .str "DCIO"), ("intent", .num 85), ("stage", .str "Consideration"), ("signals", .num 8)],
      .obj [("company", .str "BlackRock"), ("segment", .str "DCIO"), ("intent", .num 82), ("stage", .str "Consideration"), ("signals", .num 7)],
      .obj [("company", .str "Fidelity"), ("segment", .str "DCIO"), ("intent", .num 79), ("stage", .str "Consideration"), ("signals", .num 6)]]),
    ("stage_dist", .arr [
      .obj [("stage", .str "Decision"), ("count", .num 12), ("pct", .num 15)],
      .obj [("stage", .str "Consideration"), ("count", .num 35), ("pct", .num 44)],
      .obj [("stage", .str "Awareness"), ("count", .num 33), ("pct", .num 41)]]),
    ("topics", .arr [
      .obj [("topic", .str "retirement plans"), ("count", .num 45)],
      .obj [("topic", .str "stable value"), ("count", .num 38)],
      .obj [("topic", .str "401k providers"), ("count", .num 32)],
      .obj [("topic", .str "target date"), ("count", .num 28)]])]),
  ("get_account_360_view", .obj [
    ("data", .arr [
      .obj [("company", optGet tool_input "account_name" (.str "Goldman Sachs")),
            ("segment", .str "DCIO"), ("intent_score", .num 92), ("engagement_score", .num 88),
            ("buying_stage", .str "Decision"), ("lead_count", .num 8), ("mql_count", .num 5),
            ("web_sessions", .num 156), ("content_downloads", .num 12), ("pipeline_value", .num 2500000)]]),
    ("timeline", .arr [
      .obj [("date", .str "Nov 1"), ("type", .str "Web Visit"), ("detail", .str "Viewed Stable Value page")],
      .obj [("date", .str "Nov 5"), ("type", .str "Content"), ("detail", .str "Downloaded DCIO Guide")],
      .obj [("date", .str "Nov 12"), ("type", .str "Webinar"), ("detail", .str "Attended Q4 Outlook")],
      .obj [("date", .str "Dec 2"), ("type", .str "Demo"), ("detail", .str "Requested product demo")]]),
    ("comparison", .arr [
      .obj [("company", .str "Goldman Sachs"), ("intent", .num 92), ("engagement", .num 88), ("pipeline", .num 2500000)],
      .obj [("company", .str "JPMorgan"), ("intent", .num 88), ("engagement", .num 82), ("pipeline", .num 1800000)],
      .obj [("company", .str "Vanguard"), ("intent", .num 85), ("engagement", .num 78), ("pipeline", .num 1500000)]])]),
  ("get_conversion_funnel", .obj [
    ("data", .arr [
      .obj [("stage", .str "Visitors"), ("count", .num 45000), ("rate", .num 100)],
      .obj [("stage", .str "Known Leads"), ("count", .num 8500), ("rate", .num 18.9)],
      .obj [("stage", .str "Engaged"), ("count", .num 3200), ("rate", .num 7.1)],
      .obj [("stage", .str "MQLs"), ("count", .num 425), ("rate", .num 0.94)],
      .obj [("stage", .str "SQLs"), ("count", .num 156), ("rate", .num 0.35)],
      .obj [("stage", .str "Opportunities"), ("count", .num 89), ("rate", .num 0.20)],
      .obj [("stage", .str "Closed Won"), ("count", .num 28), ("rate", .num 0.06)]]),
    ("segment_funnels", .obj [
      ("DCIO", .arr [
        .obj [("stage", .str "Leads"), ("count", .num 399)],
        .obj [("stage", .str "MQLs"), ("count", .num 167)],
        .obj [("stage", .str "Won"), ("count", .num 18)]]),
      ("Enterprise", .arr [
        .obj [("stage", .str "Leads"), ("count", .num 501)],
        .obj [("stage", .str "MQLs"), ("count", .num 139)],
        .obj [("stage", .str "Won"), ("count", .num 8)]])]),
    ("velocity", .arr [
      .obj [("stage", .str "Lead to MQL"), ("avg_days", .num 14)],
      .obj [("stage", .str "MQL to SQL"), ("avg_days", .num 21)],
      .obj [("stage", .str "SQL to Opp"), ("avg_days", .num 18)],
      .obj [("stage", .str "Opp to Close"), ("avg_days", .num 45)]])]),
  ("get_high_bounce_pages", .obj [
    ("data", .arr [
      .obj [("page", .str "/landing/ppc-q4"), ("type", .str "Landing"), ("sessions", .num 245), ("bounce", .num 72.5), ("avg_time", .num 18)],
      .obj [("page", .str "/landing/email-nov"), ("type", .str "Landing"), ("sessions", .num 189), ("bounce", .num 68.2), ("avg_time", .num 22)],
      .obj [("page", .str "/resources/old-guide"), ("type", .str "Resource"), ("sessions", .num 56), ("bounce", .num 65.4), ("avg_time", .num 35)]]),
    ("by_device", .arr [
      .obj [("device", .str "Mobile"), ("bounce", .num 68.5), ("sessions", .num 1250)],
      .obj [("device", .str "Desktop"), ("bounce", .num 45.2), ("sessions", .num 2800)],
      .obj [("device", .str "Tablet"), ("bounce", .num 52.3), ("sessions", .num 450)]])]),
  ("get_pages_to_sunset", .obj [
    ("data", .arr [
      .obj [("page", .str "/resources/archived/old-guide-2019"), ("views", .num 12), ("bounce", .num 78.5), ("reason", .str "Legacy content"), ("priority", .str "High")],
      .obj [("page", .str "/products/discontinued/old-fund"), ("views", .num 23), ("bounce", .num 71.2), ("reason", .str "Product discontinued"), ("priority", .str "High")],
      .obj [("page", .str "/solutions/legacy/outdated"), ("views", .num 15), ("bounce", .num 68.9), ("reason", .str "Outdated info"), ("priority", .str "Medium")]])]),
  ("get_accounts_to_reach_out", .obj [
    ("data", .arr [
      .obj [("company", .str "Vanguard"), ("segment", .str "DCIO"), ("intent", .num 85), ("engagement", .num 78), ("priority", .str "High"), ("action", .str "SDR Outreach"), ("days_silent", .num 14), ("pipeline_potential", .num 1500000)],
      .obj [("company", .str "Fidelity"), ("segment", .str "DCIO"), ("intent", .num 82), ("engagement", .num 72), ("priority", .str "High"), ("action", .str "Executive Email"), ("days_silent", .num 21), ("pipeline_potential", .num 1200000)],
      .obj [("company", .str "State Street"), ("segment", .str "DCIO"), ("intent", .num 78), ("engagement", .num 66), ("priority", .str "Medium"), ("action", .str "Nurture"), ("days_silent", .num 35), ("pipeline_potential", .num 900000)]]),
    ("priority_breakdown", .arr [
      .obj [("priority", .str "High"), ("count", .num 8), ("potential", .num 12500000)],
      .obj [("priority", .str "Medium"), ("count", .num 15), ("potential", .num 8200000)],
      .obj [("priority", .str "Low"), ("count", .num 22), ("potential", .num 4800000)]])]),
  ("get_paid_media_performance", .obj [
    ("data", .arr [
      .obj [("campaign", .str "LinkedIn DCIO"), ("platform", .str "LinkedIn"), ("spend", .num 48500), ("impressions", .num 856000), ("clicks", .num 9580), ("conversions", .num 425), ("ctr", .num 1.12), ("roas", .num 2.8), ("cpa", .num 114)],
      .obj [("campaign", .str "Google Search"), ("platform", .str "Google"), ("spend", .num 38200), ("impressions", .num 1650000), ("clicks", .num 52800), ("conversions", .num 1890), ("ctr", .num 3.20), ("roas", .num 4.5), ("cpa", .num 20)],
      .obj [("campaign", .str "LinkedIn Retarget"), ("platform", .str "LinkedIn"), ("spend", .num 22500), ("impressions", .num 425000), ("clicks", .num 5100), ("conversions", .num 312), ("ctr", .num 1.20), ("roas", .num 3.2), ("cpa", .num 72)]]),
    ("platform_comp", .arr [
      .obj [("platform", .str "LinkedIn"), ("spend", .num 71000), ("conversions", .num 737), ("roas", .num 2.95)],
      .obj [("platform", .str "Google"), ("spend", .num 54000), ("conversions", .num 2135), ("roas", .num 3.85)]]),
    ("daily", .arr [
      .obj [("date", .str "Dec 1"), ("spend", .num 4200), ("conversions", .num 145)],
      .obj [("date", .str "Dec 2"), ("spend", .num 4500), ("conversions", .num 162)],
      .obj [("date", .str "Dec 3"), ("spend", .num 3800), ("conversions", .num 128)],
      .obj [("date", .str "Dec 4"), ("spend", .num 4100), ("conversions", .num 152)]])]),
  ("get_channel_attribution", .obj [
    ("data", .arr [
      .obj [("channel", .str "Email"), ("first_touch", .num 156), ("last_touch", .num 189), ("linear", .num 172), ("revenue", .num 4500000), ("pct", .num 32)],
      .obj [("channel", .str "Organic"), ("first_touch", .num 189), ("last_touch", .num 142), ("linear", .num 165), ("revenue", .num 3800000), ("pct", .num 27)],
      .obj [("channel", .str "Paid Search"), ("first_touch", .num 98), ("last_touch", .num 112), ("linear", .num 105), ("revenue", .num 2800000), ("pct", .num 20)],
      .obj [("channel", .str "Social"), ("first_touch", .num 78), ("last_touch", .num 65), ("linear", .num 71), ("revenue", .num 1800000), ("pct", .num 13)]]),
    ("paths", .arr [
      .obj [("path", .str "Organic → Email → Direct"), ("conversions", .num 45), ("revenue", .num 1250000)],
      .obj [("path", .str "Paid → Email → Direct"), ("conversions", .num 38), ("revenue", .num 980000)],
      .obj [("path", .str "Email → Webinar → Direct"), ("conversions", .num 32), ("revenue", .num 850000)]])]),
  ("detect_marketing_anomalies", .obj [
    ("data", .arr [
      .obj [("type", .str "🔴 Drop"), ("area", .str "Email CTR"), ("current", .num 5.2), ("baseline", .num 8.5), ("change", .num (-38.8)), ("severity", .str "High"), ("action", .str "Review email content")],
      .obj [("type", .str "🟢 Spike"), ("area", .str "Vanguard Intent"), ("current", .num 89), ("baseline", .num 62), ("change", .num 43.5), ("severity", .str "Opportunity"), ("action", .str "Prioritize SDR outreach")],
      .obj [("type", .str "🟢 Spike"), ("area", .str "BlackRock Intent"), ("current", .num 85), ("baseline", .num 58), ("change", .num 46.6), ("severity", .str "Opportunity"), ("action", .str "Add to ABM")],
      .obj [("type", .str "🟡 Gap"), ("area", .str "Fidelity"), ("current", .num 72), ("baseline", .num 14), ("change", .num 414), ("severity", .str "Medium"), ("action", .str "Sales outreach")]]),
    ("summary", .obj [("total", .num 6), ("high", .num 2), ("opportunities", .num 2), ("medium", .num 2)])]),
  ("generate_campaign_brief", .obj [
    ("data", .arr [
      .obj [("campaign_name", .str (pyStr (optGet tool_input "target_segment" (.str "DCIO")) ++ " Q1 2025")),
            ("target_segment", optGet tool_input "target_segment" (.str "DCIO")),
            ("budget", .num 25000), ("duration", .str "6 weeks")]]),
    ("target_accounts", .arr [
      .obj [("company", .str "Vanguard"), ("intent", .num 85), ("fit", .str "A")],
      .obj [("company", .str "Fidelity"), ("intent", .num 82), ("fit", .str "A")],
      .obj [("company", .str "State Street"), ("intent", .num 78), ("fit", .str "B")]]),
    ("channel_mix", .arr [
      .obj [("channel", .str "LinkedIn Ads"), ("budget", .num 10000), ("expected_leads", .num 45)],
      .obj [("channel", .str "Email Nurture"), ("budget", .num 5000), ("expected_leads", .num 25)],
      .obj [("channel", .str "Content Syndication"), ("budget", .num 6000), ("expected_leads", .num 30)]]),
    ("expected_results", .obj [("leads", .num 120), ("mqls", .num 45), ("pipeline", .num 2500000), ("cpl", .num 208)])]),
  ("get_pathfactory_engagement", .obj [
    ("data", .arr [
      .obj [("company", .str "Goldman Sachs"), ("asset", .str "Stable Value Guide"), ("type", .str "Whitepaper"), ("time_spent", .num 485), ("completion", .num 92)],
      .obj [("company", .str "JPMorgan"), ("asset", .str "DCIO Comparison"), ("type", .str "eBook"), ("time_spent", .num 320), ("completion", .num 78)],
      .obj [("company", .str "Vanguard"), ("asset", .str "Best Practices"), ("type", .str "Whitepaper"), ("time_spent", .num 245), ("completion", .num 65)]]),
    ("by_type", .arr [
      .obj [("type", .str "Whitepaper"), ("avg_time", .num 340), ("completion", .num 72)],
      .obj [("type", .str "eBook"), ("avg_time", .num 280), ("completion", .num 65)],
      .obj [("type", .str "Video"), ("avg_time", .num 180), ("completion", .num 58)]])])]

/-- Executor of trial.py (`get_mock_data`, lines 83-146):
`mock.get(tool_name, {"data": [{"info": "Data retrieved"}]})`. -/
def get_mock_data (tool_name : String) (tool_input : Option (List (String × Json))) : Json :=
  dget (mock tool_input) tool_name (.obj [("data", .arr [.obj [("info", .str "Data retrieved")]])])

end Trial

namespace Trial

/-- Result Projection for `get_conversion_funnel` in trial.py
(`create_visualizations`, lines 276-298): a funnel chart over the `data`
rows (`go.Funnel(y=df['stage'], x=df['count'])` — stage order is the row
order), a grouped bar chart per segment funnel, and a stage-velocity bar
chart; each guarded by the truthiness of its source field. Styling (colors,
layout, templates) is presentation and not modelled. -/
def conversionFunnelFigures (data : Json) : List Figure :=
  let main := asArr (getFieldD data "data" (.arr []))
  let funnelFigs : List Figure :=
    if main.isEmpty then []
    else [⟨"🔄 Funnel", "funnel", [⟨"", col main "count", col main "stage"⟩]⟩]
  let segs := objFields (getFieldD data "segment_funnels" (.obj []))
  let segFigs : List Figure :=
    if segs.isEmpty then []
    else [⟨"📊 Segments", "bar",
           segs.map (fun p => ⟨p.1, col (asArr p.2) "stage", col (asArr p.2) "count"⟩)⟩]
  let vel := asArr (getFieldD data "velocity" (.arr []))
  let velFigs : List Figure :=
    if vel.isEmpty then []
    else [⟨"⏱️ Velocity", "bar", [⟨"", col vel "stage", col vel "avg_days"⟩]⟩]
  funnelFigs ++ segFigs ++ velFigs

/-- Mutable locals of the trial.py tool-use loop (lines 604-625), plus
(instrumentation) every message list submitted to the model so far. -/
structure LoopSt where
  api_msgs : List Message
  tools_used : List String
  tool_name : Option String
  tool_data : Option Json
  iteration : Nat
  submissions : List (List Message)

/-- Body of the inner `for tb in [...]` of trial.py (lines 617-624): per
tool-use block, record the tool, execute it (`get_mock_data(...) if
demo_mode else get_mock_data(...)` — line 622), and append the assistant
turn and a single-result batch to the API message list. -/
def toolStep (demo_mode : Bool) (content : List ContentBlock) (s : LoopSt) (tb : ToolUse) :
    LoopSt :=
  let tool_data :=
    if demo_mode then get_mock_data tb.name (some tb.input)
    else get_mock_data tb.name (some tb.input)
  { s with
    tools_used := s.tools_used ++ [tb.name],
    tool_name := some tb.name,
    tool_data := some tool_data,
    api_msgs := s.api_msgs ++
      [Message.assistant content, Message.toolResults [⟨tb.id, tool_data⟩]] }

/-- The whole inner for-loop over a response's tool-use blocks. -/
def runToolBlocks (demo_mode : Bool) (r : ModelResponse) (s : LoopSt) : LoopSt :=
  (toolUses r.content).foldl (toolStep demo_mode r.content) s

/-- Tool-use loop of trial.py (lines 614-625):
`while response.stop_reason == "tool_use" and iteration < 5:` with
`iteration += 1` first, then the for-loop over ALL tool-use blocks, then a
fresh model call. `fuel` is the remaining budget `5 - iteration`; `c`
indexes the next model call in the oracle. -/
def loopGo (respond : Nat → Except String ModelResponse) (demo_mode : Bool) :
    Nat → Nat → ModelResponse → LoopSt → Except String (ModelResponse × LoopSt)
  | 0, _, r, s => .ok (r, s)
  | fuel + 1, c, r, s =>
    if r.stop_reason = "tool_use" then
      let s1 := runToolBlocks demo_mode r { s with iteration := s.iteration + 1 }
      match respond c with
      | .error e => .error e
      | .ok r2 =>
          loopGo respond demo_mode fuel (c + 1) r2
            { s1 with submissions := s1.submissions ++ [s1.api_msgs] }
    else .ok (r, s)

/-- Final-answer extraction of trial.py (line 629):
`"".join([b.text for b in response.content if hasattr(b, "text")]) or
"See visualizations below."`. -/
def extractAnswer (content : List ContentBlock) : String :=
  pyOrString (String.join (content.filterMap ContentBlock.textOf)) "See visualizations below."

/-- Result of one trial.py orchestration cycle. -/
structure Out where
  answer : String
  iteration : Nat
  tools_used : List String
  tool_name : Option String
  tool_data : Option Json
  api_messages : List Message
  submissions : List (List Message)

/-- One orchestration cycle of trial.py (lines 603-652, inside the try
block): trim the carried API log to its last 10 messages, append the user
question, run the initial model call and the tool-use loop, extract the
answer, and produce the new API log
(`api_msgs + [{"role": "assistant", "content": response.content}]`).
The system prompt and elapsed-time bookkeeping are not modelled. -/
def cycle (respond : Nat → Except String ModelResponse) (demo_mode : Bool)
    (api_messages : List Message) (final_input : String) : Except String Out :=
  let api_msgs0 := lastN 10 api_messages ++ [Message.user final_input]
  match respond 0 with
  | .error e => .error e
  | .ok r0 =>
    match loopGo respond demo_mode 5 1 r0 ⟨api_msgs0, [], none, none, 0, [api_msgs0]⟩ with
    | .error e => .error e
    | .ok (rF, s) =>
        .ok ⟨extractAnswer rF.content, s.iteration, s.tools_used, s.tool_name, s.tool_data,
             s.api_msgs ++ [Message.assistant rF.content], s.submissions⟩

/-- Session state of trial.py relevant to the conversation: the display
chat log (`st.session_state.messages`) and the carried API log
(`st.session_state.api_messages`). Counters and UI flags are presentation. -/
structure Session where
  messages : List DMsg
  api_messages : List Message

/-- Question processing of trial.py (lines 589-658): the user turn is
appended to the display log BEFORE the try block (line 592); with no API
key only an error is shown; on success the assistant turn is appended and
the API log committed (lines 650-651); an exception (lines 655-658) leaves
the session with the dangling user turn and the API log unchanged. -/
def processQuestion (respond : Nat → Except String ModelResponse) (demo_mode : Bool)
    (api_key : String) (pre : Session) (final_input : String) : Session :=
  let messages1 := pre.messages ++ [⟨"user", final_input⟩]
  if api_key = "" then ⟨messages1, pre.api_messages⟩
  else
    match cycle respond demo_mode pre.api_messages final_input with
    | .error _ => ⟨messages1, pre.api_messages⟩
    | .ok out => ⟨messages1 ++ [⟨"assistant", out.answer⟩], out.api_messages⟩

/-- Iteration count of a cycle result (0 for a failed cycle). -/
def itersOf : Except String Out → Nat
  | .ok o => o.iteration
  | .error _ => 0

/-- Submission log of a cycle result. -/
def subsOf : Except String Out → List (List Message)
  | .ok o => o.submissions
  | .error _ => []

/-- Final answer of a cycle result. -/
def answerOf : Except String Out → Option String
  | .ok o => some o.answer
  | .error _ => none

end Trial

namespace MApp

/-- Tool catalog of Marketingapp.py (`TOOLS`, lines 823-864). -/
def TOOLS : List ToolSpec := [
  ⟨"get_lead_metrics", "Get lead counts, MQL counts, and lead scores from Marketo.",
    .obj [("type", .str "object"),
          ("properties", .obj [("segment", .obj [("type", .str "string"),
                                                 ("enum", .arr [.str "DCIO", .str "Enterprise", .str "Mid-Market", .str "Small Business"])]),
                               ("date_range_days", .obj [("type", .str "integer"), ("default", .num 90)])]),
          ("required", .arr [])]⟩,
  ⟨"get_conversion_funnel", "Get funnel conversion rates from lead to MQL to opportunity.",
    .obj [("type", .str "object"),
          ("properties", .obj [("segment", .obj [("type", .str "string"),
                                                 ("enum", .arr [.str "DCIO", .str "Enterprise", .str "Mid-Market", .str "Small Business"])])]),
          ("required", .arr [])]⟩,
  ⟨"get_funnel_summary", "Get comprehensive funnel summary with leads, web sessions, intent scores, content engagement, and pipeline.",
    .obj [("type", .str "object"),
          ("properties", .obj [("segment", .obj [("type", .str "string")]),
                               ("top_n", .obj [("type", .str "integer"), ("default", .num 10)])]),
          ("required", .arr [])]⟩,
  ⟨"get_campaign_performance", "Get campaign-level performance metrics.",
    .obj [("type", .str "object"),
          ("properties", .obj [("channel", .obj [("type", .str "string"),
                                                 ("enum", .arr [.str "Email", .str "Content", .str "Paid Social", .str "Paid Search", .str "ABM"])])]),
          ("required", .arr [])]⟩,
  ⟨"get_paid_media_performance", "Get paid media campaign metrics - LinkedIn vs Google comparison.",
    .obj [("type", .str "object"),
          ("properties", .obj [("platform", .obj [("type", .str "string"),
                                                  ("enum", .arr [.str "LinkedIn", .str "Google"])])]),
          ("required", .arr [])]⟩,
  ⟨"get_email_engagement", "Get email campaign engagement metrics - open rates, click rates.",
    .obj [("type", .str "object"),
          ("properties", .obj [("date_range_days", .obj [("type", .str "integer"), ("default", .num 30)])]),
          ("required", .arr [])]⟩,
  ⟨"get_web_engagement", "Get Adobe Analytics web engagement data.",
    .obj [("type", .str "object"),
          ("properties", .obj [("segment", .obj [("type", .str "string")])]),
          ("required", .arr [])]⟩,
  ⟨"get_content_engagement", "Get PathFactory content engagement metrics.",
    .obj [("type", .str "object"),
          ("properties", .obj [("segment", .obj [("type", .str "string")])]),
          ("required", .arr [])]⟩,
  ⟨"get_intent_signals", "Get 6sense intent data showing which accounts are researching relevant topics.",
    .obj [("type", .str "object"),
          ("properties", .obj [("segment", .obj [("type", .str "string")]),
                               ("buying_stage", .obj [("type", .str "string"),
                                                      ("enum", .arr [.str "Awareness", .str "Consideration", .str "Decision"])])]),
          ("required", .arr [])]⟩,
  ⟨"get_account_engagement_scores", "Get 6sense account engagement scores and buying stages.",
    .obj [("type", .str "object"),
          ("properties", .obj [("segment", .obj [("type", .str "string")]),
                               ("buying_stage", .obj [("type", .str "string")])]),
          ("required", .arr [])]⟩,
  ⟨"get_form_performance", "Get AEM form performance - completion rates, abandonment.",
    .obj [("type", .str "object"),
          ("properties", .obj [("form_id", .obj [("type", .str "string")])]),
          ("required", .arr [])]⟩,
  ⟨"get_pipeline_metrics", "Get Salesforce pipeline and opportunity data.",
    .obj [("type", .str "object"),
          ("properties", .obj [("segment", .obj [("type", .str "string")])]),
          ("required", .arr [])]⟩,
  ⟨"get_converted_accounts", "Get accounts that converted with their marketing journey.",
    .obj [("type", .str "object"),
          ("properties", .obj [("segment", .obj [("type", .str "string")])]),
          ("required", .arr [])]⟩,
  ⟨"get_channel_attribution", "Get multi-touch attribution showing channel influence.",
    .obj [("type", .str "object"),
          ("properties", .obj [("attribution_model", .obj [("type", .str "string"),
                                                           ("enum", .arr [.str "first_touch", .str "last_touch", .str "linear"])])]),
          ("required", .arr [])]⟩,
  ⟨"get_account_360_view", "Get complete 360-degree view of a specific account.",
    .obj [("type", .str "object"),
          ("properties", .obj [("company_name", .obj [("type", .str "string")])]),
          ("required", .arr [])]⟩,
  ⟨"get_page_performance", "Get page-level performance metrics.",
    .obj [("type", .str "object"),
          ("properties", .obj [("page_type", .obj [("type", .str "string")])]),
          ("required", .arr [])]⟩,
  ⟨"generate_campaign_brief", "Generate comprehensive campaign brief with data-driven recommendations.",
    .obj [("type", .str "object"),
          ("properties", .obj [("campaign_type", .obj [("type", .str "string"),
                                                       ("enum", .arr [.str "email", .str "nurture", .str "webinar", .str "content_syndication"])]),
                               ("target_segment", .obj [("type", .str "string"),
                                                        ("enum", .arr [.str "DCIO", .str "Enterprise", .str "Mid-Market", .str "Small Business"])]),
                               ("campaign_objective", .obj [("type", .str "string")])]),
          ("required", .arr [.str "campaign_type", .str "target_segment", .str "campaign_objective"])]⟩,
  ⟨"detect_marketing_anomalies", "Detect marketing anomalies including performance drops, intent spikes, and engagement gaps.",
    .obj [("type", .str "object"),
          ("properties", .obj [("lookback_days", .obj [("type", .str "integer"), ("default", .num 30)]),
                               ("severity_filter", .obj [("type", .str "string"),
                                                         ("enum", .arr [.str "all", .str "high", .str "medium"])])]),
          ("required", .arr [])]⟩]

/-- Mock data dict of Marketingapp.py `get_mock_data` (lines 872-961).
`datetime.now().isoformat()` is modelled by the `now` parameter; `tool_input`
is the (possibly empty) argument dict. -/
def mock (tool_input : List (String × Json)) (now : String) : List (String × Json) := [
  ("get_lead_metrics", .obj [
    ("data", .arr [
      .obj [("segment", .str "DCIO"), ("lead_source", .str "Website"), ("total_leads", .num 245), ("mqls", .num 89), ("avg_lead_score", .num 72.5), ("mql_rate_pct", .num 36.3)],
      .obj [("segment", .str "DCIO"), ("lead_source", .str "Webinar"), ("total_leads", .num 156), ("mqls", .num 78), ("avg_lead_score", .num 78.2), ("mql_rate_pct", .num 50.0)],
      .obj [("segment", .str "Enterprise"), ("lead_source", .str "Content Download"), ("total_leads", .num 312), ("mqls", .num 94), ("avg_lead_score", .num 65.8), ("mql_rate_pct", .num 30.1)],
      .obj [("segment", .str "Enterprise"), ("lead_source", .str "Paid Media"), ("total_leads", .num 189), ("mqls", .num 45), ("avg_lead_score", .num 58.3), ("mql_rate_pct", .num 23.8)],
      .obj [("segment", .str "Mid-Market"), ("lead_source", .str "Event"), ("total_leads", .num 98), ("mqls", .num 32), ("avg_lead_score", .num 61.2), ("mql_rate_pct", .num 32.7)]]),
    ("row_count", .num 5)]),
  ("get_conversion_funnel", .obj [
    ("data", .arr [
      .obj [("segment", .str "DCIO"), ("total_leads", .num 401), ("mqls", .num 167), ("opportunities", .num 45), ("closed_won", .num 18), ("lead_to_mql_rate", .num 41.6), ("mql_to_opp_rate", .num 26.9), ("opp_to_won_rate", .num 40.0)],
      .obj [("segment", .str "Enterprise"), ("total_leads", .num 501), ("mqls", .num 139), ("opportunities", .num 28), ("closed_won", .num 8), ("lead_to_mql_rate", .num 27.7), ("mql_to_opp_rate", .num 20.1), ("opp_to_won_rate", .num 28.6)],
      .obj [("segment", .str "Mid-Market"), ("total_leads", .num 198), ("mqls", .num 52), ("opportunities", .num 12), ("closed_won", .num 4), ("lead_to_mql_rate", .num 26.3), ("mql_to_opp_rate", .num 23.1), ("opp_to_won_rate", .num 33.3)]]),
    ("row_count", .num 3)]),
  ("get_funnel_summary", .obj [
    ("data", .arr [
      .obj [("company_name", .str "Goldman Sachs"), ("segment", .str "DCIO"), ("total_leads", .num 8), ("mqls", .num 5), ("avg_lead_score", .num 82.3), ("web_sessions", .num 156), ("avg_intent_score", .num 87.5), ("buying_stage", .str "Decision"), ("content_engagements", .num 45), ("total_pipeline_value", .num 2500000)],
      .obj [("company_name", .str "JPMorgan Chase"), ("segment", .str "DCIO"), ("total_leads", .num 6), ("mqls", .num 4), ("avg_lead_score", .num 79.1), ("web_sessions", .num 134), ("avg_intent_score", .num 82.3), ("buying_stage", .str "Decision"), ("content_engagements", .num 38), ("total_pipeline_value", .num 1800000)],
      .obj [("company_name", .str "Morgan Stanley"), ("segment", .str "DCIO"), ("total_leads", .num 5), ("mqls", .num 3), ("avg_lead_score", .num 75.8), ("web_sessions", .num 98), ("avg_intent_score", .num 78.9), ("buying_stage", .str "Consideration"), ("content_engagements", .num 28), ("total_pipeline_value", .num 1500000)]]),
    ("row_count", .num 3)]),
  ("get_paid_media_performance", .obj [
    ("data", .arr [
      .obj [("platform", .str "LinkedIn"), ("campaign_name", .str "LinkedIn DCIO Targeting"), ("total_impressions", .num 856000), ("total_clicks", .num 9580), ("total_spend", .num 48500.00), ("total_conversions", .num 425), ("avg_cpc", .num 5.06), ("avg_ctr", .num 1.12), ("cost_per_conversion", .num 114.12)],
      .obj [("platform", .str "Google"), ("campaign_name", .str "Google Search - Retirement Plans"), ("total_impressions", .num 1650000), ("total_clicks", .num 52800), ("total_spend", .num 38200.00), ("total_conversions", .num 1890), ("avg_cpc", .num 0.72), ("avg_ctr", .num 3.20), ("cost_per_conversion", .num 20.21)]]),
    ("row_count", .num 2)]),
  ("get_intent_signals", .obj [
    ("data", .arr [
      .obj [("company_name", .str "Goldman Sachs"), ("segment", .str "DCIO"), ("intent_keyword", .str "dcio providers"), ("max_intent_score", .num 92), ("buying_stage", .str "Decision"), ("total_searches", .num 45), ("signal_count", .num 12)],
      .obj [("company_name", .str "Fidelity Investments"), ("segment", .str "DCIO"), ("intent_keyword", .str "stable value funds"), ("max_intent_score", .num 88), ("buying_stage", .str "Decision"), ("total_searches", .num 38), ("signal_count", .num 9)],
      .obj [("company_name", .str "JPMorgan Chase"), ("segment", .str "DCIO"), ("intent_keyword", .str "retirement plan providers"), ("max_intent_score", .num 85), ("buying_stage", .str "Consideration"), ("total_searches", .num 32), ("signal_count", .num 8)]]),
    ("row_count", .num 3)]),
  ("get_account_360_view", .obj [
    ("data", .arr [
      .obj [("company_name", dget tool_input "company_name" (.str "Goldman Sachs")),
            ("segment", .str "DCIO"), ("industry", .str "Financial Services"), ("employee_count", .num 45000),
            ("lead_count", .num 8), ("mql_count", .num 5), ("avg_lead_score", .num 82.3), ("web_sessions", .num 156),
            ("max_intent_score", .num 92), ("buying_stage", .str "Decision"), ("content_engagements", .num 45),
            ("total_pipeline", .num 2500000), ("closed_won_value", .num 1200000), ("opportunity_count", .num 3)]]),
    ("row_count", .num 1)]),
  ("get_channel_attribution", .obj [
    ("data", .arr [
      .obj [("channel", .str "Email"), ("accounts_touched", .num 245), ("accounts_converted", .num 18), ("attributed_revenue", .num 4500000), ("conversion_rate", .num 7.3)],
      .obj [("channel", .str "Paid Search"), ("accounts_touched", .num 312), ("accounts_converted", .num 12), ("attributed_revenue", .num 2800000), ("conversion_rate", .num 3.8)],
      .obj [("channel", .str "Organic"), ("accounts_touched", .num 456), ("accounts_converted", .num 15), ("attributed_revenue", .num 3200000), ("conversion_rate", .num 3.3)],
      .obj [("channel", .str "Paid Social"), ("accounts_touched", .num 189), ("accounts_converted", .num 8), ("attributed_revenue", .num 1800000), ("conversion_rate", .num 4.2)],
      .obj [("channel", .str "Content"), ("accounts_touched", .num 278), ("accounts_converted", .num 10), ("attributed_revenue", .num 2100000), ("conversion_rate", .num 3.6)]]),
    ("row_count", .num 5)]),
  ("generate_campaign_brief", .obj [
    ("brief_metadata", .obj [
      ("generated_at", .str now),
      ("campaign_type", dget tool_input "campaign_type" (.str "nurture")),
      ("target_segment", dget tool_input "target_segment" (.str "DCIO"))]),
    ("historical_performance", .arr [
      .obj [("avg_ctr", .num 8.5), ("avg_open_rate", .num 32.4), ("avg_cvr", .num 24.6), ("avg_cpl", .num 95.50)]]),
    ("intent_signals", .arr [
      .obj [("company_name", .str "Goldman Sachs"), ("avg_intent_score", .num 92.0), ("signal_count", .num 12), ("top_keyword", .str "dcio providers")],
      .obj [("company_name", .str "Fidelity Investments"), ("avg_intent_score", .num 88.0), ("signal_count", .num 9), ("top_keyword", .str "stable value funds")],
      .obj [("company_name", .str "JPMorgan Chase"), ("avg_intent_score", .num 85.0), ("signal_count", .num 8), ("top_keyword", .str "retirement plans")]]),
    ("content_performance", .arr [
      .obj [("asset_title", .str "Stable Value Funds Guide 2024"), ("asset_type", .str "Whitepaper"), ("conversion_rate", .num 28.5)],
      .obj [("asset_title", .str "DCIO Provider Comparison Report"), ("asset_type", .str "eBook"), ("conversion_rate", .num 27.3)]]),
    ("data", .obj [("summary", .obj [("high_intent_accounts", .num 47), ("recommended_budget", .num 25000), ("target_mqls", .num 85)])]),
    ("row_count", .num 1)]),
  ("detect_marketing_anomalies", .obj [
    ("anomaly_summary", .obj [
      ("scan_date", .str now), ("total_anomalies", .num 12), ("high_priority_count", .num 5)]),
    ("email_performance_drops", .arr [
      .obj [("campaign_name", .str "Q4 Enterprise Nurture"), ("recent_ctr", .num 5.2), ("baseline_ctr", .num 8.5), ("pct_change", .num (-38.8)), ("severity", .str "high")]]),
    ("intent_spikes", .arr [
      .obj [("company_name", .str "Vanguard"), ("recent_score", .num 89.0), ("baseline_score", .num 62.0), ("pct_change", .num 43.5), ("severity", .str "high")],
      .obj [("company_name", .str "BlackRock"), ("recent_score", .num 85.0), ("baseline_score", .num 58.0), ("pct_change", .num 46.6), ("severity", .str "high")]]),
    ("engagement_gaps", .arr [
      .obj [("company_name", .str "Fidelity Investments"), ("avg_intent_score", .num 88.0), ("days_since_contact", .num 72), ("severity", .str "high")]]),
    ("data", .arr [
      .obj [("type", .str "Performance Drops"), ("count", .num 2), ("severity", .str "high")],
      .obj [("type", .str "Intent Spikes"), ("count", .num 3), ("severity", .str "opportunity")],
      .obj [("type", .str "Engagement Gaps"), ("count", .num 3), ("severity", .str "high")]]),
    ("row_count", .num 8)])]

/-- Executor of Marketingapp.py (`get_mock_data`, lines 869-963):
`mock_responses.get(tool_name, {"data": [], "row_count": 0})`. -/
def get_mock_data (tool_name : String) (tool_input : List (String × Json)) (now : String) :
    Json :=
  dget (mock tool_input now) tool_name (.obj [("data", .arr []), ("row_count", .num 0)])

end MApp

namespace MApp

/-- Batch accumulator of the inner `for tool_use in tool_uses:` of
Marketingapp.py (lines 1360-1373): tools called so far, last tool
name/data, and the tool-result batch built for this response. -/
structure BatchAcc where
  tools_called : List String
  last_tool_name : Option String
  last_tool_data : Option Json
  tool_results : List ToolResultEntry

/-- One step of the inner for-loop (lines 1362-1373): record the tool,
execute it, and append one result entry to the batch. -/
def toolStep (now : String) (acc : BatchAcc) (tu : ToolUse) : BatchAcc :=
  let result := get_mock_data tu.name tu.input now
  ⟨acc.tools_called ++ [tu.name], some tu.name, some result,
   acc.tool_results ++ [⟨tu.id, result⟩]⟩

/-- The whole inner for-loop over a response's tool-use blocks, starting
from an empty batch (`tool_results = []`, line 1360). -/
def runToolBatch (now : String) (r : ModelResponse) (acc : BatchAcc) : BatchAcc :=
  (toolUses r.content).foldl (toolStep now) acc

/-- Mutable locals of the Marketingapp.py tool-use loop (lines 1352-1379),
plus (instrumentation) every message list submitted to the model so far. -/
structure LoopSt where
  messages : List Message
  tools_called : List String
  last_tool_name : Option String
  last_tool_data : Option Json
  iteration : Nat
  submissions : List (List Message)

/-- Tool-use loop of Marketingapp.py (lines 1357-1379):
`while response.stop_reason == "tool_use" and iteration < 8:` with
`iteration += 1` first, then ALL tool-use blocks resolved into one batch,
the assistant turn and the whole batch appended (lines 1375-1376), and a
fresh model call. `fuel` is the remaining budget `8 - iteration`; `c`
indexes the next model call in the oracle. -/
def loopGo (respond : Nat → Except String ModelResponse) (now : String) :
    Nat → Nat → ModelResponse → LoopSt → Except String (ModelResponse × LoopSt)
  | 0, _, r, s => .ok (r, s)
  | fuel + 1, c, r, s =>
    if r.stop_reason = "tool_use" then
      let acc := runToolBatch now r ⟨s.tools_called, s.last_tool_name, s.last_tool_data, []⟩
      let msgs := s.messages ++
        [Message.assistant r.content, Message.toolResults acc.tool_results]
      match respond c with
      | .error e => .error e
      | .ok r2 =>
          loopGo respond now fuel (c + 1) r2
            ⟨msgs, acc.tools_called, acc.last_tool_name, acc.last_tool_data,
             s.iteration + 1, s.submissions ++ [msgs]⟩
    else .ok (r, s)

/-- Fallback answer of Marketingapp.py (line 1388); the apostrophe of the
source string is spelled via its character code. -/
def fallbackAnswer : String :=
  "I couldn" ++ String.singleton (Char.ofNat 39) ++ "t generate a response. Please try rephrasing."

/-- Final-answer extraction of Marketingapp.py (lines 1386-1388):
join all text blocks; substitute the fallback when the join is empty. -/
def extractAnswer (content : List ContentBlock) : String :=
  let final_answer := String.join (content.filterMap ContentBlock.textOf)
  if final_answer = "" then fallbackAnswer else final_answer

/-- Result of one Marketingapp.py orchestration cycle. -/
structure Out where
  final_answer : String
  iteration : Nat
  tools_called : List String
  last_tool_name : Option String
  last_tool_data : Option Json
  messages : List Message
  submissions : List (List Message)

/-- One orchestration cycle of Marketingapp.py (lines 1328-1388, inside the
try block): a FRESH message list holding only the current question
(line 1345 — no session history is carried), the initial model call, the
tool-use loop, then answer extraction. -/
def cycle (respond : Nat → Except String ModelResponse) (now : String)
    (user_input : String) : Except String Out :=
  let messages := [Message.user user_input]
  match respond 0 with
  | .error e => .error e
  | .ok r0 =>
    match loopGo respond now 8 1 r0 ⟨messages, [], none, none, 0, [messages]⟩ with
    | .error e => .error e
    | .ok (rF, s) =>
        .ok ⟨extractAnswer rF.content, s.iteration, s.tools_called,
             s.last_tool_name, s.last_tool_data, s.messages, s.submissions⟩

/-- Session state of Marketingapp.py relevant to the conversation:
`st.session_state.messages` (the display chat log). -/
structure Session where
  messages : List DMsg

/-- Input processing of Marketingapp.py (lines 1313-1426): with no API key
the function stops BEFORE appending (lines 1318-1320); otherwise the user
turn is appended to the session log before the try block (line 1322); on
success the assistant turn is appended (lines 1418-1421); an exception
(lines 1423-1426) leaves the session with the dangling user turn. -/
def processInput (respond : Nat → Except String ModelResponse) (now : String)
    (api_key : String) (pre : Session) (user_input : String) : Session :=
  if api_key = "" then pre
  else
    let messages1 := pre.messages ++ [⟨"user", user_input⟩]
    match cycle respond now user_input with
    | .error _ => ⟨messages1⟩
    | .ok out => ⟨messages1 ++ [⟨"assistant", out.final_answer⟩]⟩

/-- Iteration count of a cycle result (0 for a failed cycle). -/
def itersOf : Except String Out → Nat
  | .ok o => o.iteration
  | .error _ => 0

/-- Submission log of a cycle result. -/
def subsOf : Except String Out → List (List Message)
  | .ok o => o.submissions
  | .error _ => []

/-- Final answer of a cycle result. -/
def answerOf : Except String Out → Option String
  | .ok o => some o.final_answer
  | .error _ => none

end MApp

/-- Terminal model response used in concrete runs. -/
def endResp : ModelResponse := ⟨"end_turn", [.text "Here is the analysis."]⟩

/-- Tool-requesting response with a single tool-use block. -/
def tuResp : ModelResponse := ⟨"tool_use", [.toolUse "toolu_01" "get_conversion_funnel" []]⟩

/-- Tool-requesting response carrying TWO tool-use blocks in one turn. -/
def twoToolResp : ModelResponse :=
  ⟨"tool_use", [.toolUse "idA" "q1_pages_never_viewed" [],
                .toolUse "idB" "q2_forms_high_error_rate" []]⟩

/-- Terminal response whose only content block is an empty text block. -/
def emptyTextResp : ModelResponse := ⟨"end_turn", [.text ""]⟩

/-- Model that requests a tool on every call. -/
def alwaysTool : Nat → ModelResponse := fun _ => tuResp

/-- Model that requests one tool and then finishes. -/
def oneToolStream : Nat → ModelResponse := fun n => if n = 0 then tuResp else endResp

/-- Model that requests two tools in its first response and then finishes. -/
def twoToolStream : Nat → ModelResponse := fun n => if n = 0 then twoToolResp else endResp

/-- Oracle whose every call raises (a transport failure). -/
def failStream : Nat → Except String ModelResponse := fun _ => .error "Connection error"

/-- A carried API log of 12 messages (six earlier question/answer pairs). -/
def apiLog12 : List Message :=
  [Message.user "u1", Message.assistant [.text "a1"], Message.user "u2", Message.assistant [.text "a2"],
   Message.user "u3", Message.assistant [.text "a3"], Message.user "u4", Message.assistant [.text "a4"],
   Message.user "u5", Message.assistant [.text "a5"], Message.user "u6", Message.assistant [.text "a6"]]

/-- The seven `data` rows of trial.py's `get_conversion_funnel` fixture
(lines 107). -/
def funnelDataRows : List Json := [
  .obj [("stage", .str "Visitors"), ("count", .num 45000), ("rate", .num 100)],
  .obj [("stage", .str "Known Leads"), ("count", .num 8500), ("rate", .num 18.9)],
  .obj [("stage", .str "Engaged"), ("count", .num 3200), ("rate", .num 7.1)],
  .obj [("stage", .str "MQLs"), ("count", .num 425), ("rate", .num 0.94)],
  .obj [("stage", .str "SQLs"), ("count", .num 156), ("rate", .num 0.35)],
  .obj [("stage", .str "Opportunities"), ("count", .num 89), ("rate", .num 0.20)],
  .obj [("stage", .str "Closed Won"), ("count", .num 28), ("rate", .num 0.06)]]

/-- Association-list lookup with a key absent from the key list yields the
default (the `dict.get` fallback path). -/
theorem dget_not_mem (l : List (String × Json)) (k : String) (d : Json)
    (h : k ∉ l.map Prod.fst) : dget l k d = d := by
  induction l with
  | nil => rfl
  | cons p rest ih =>
      obtain ⟨k', v⟩ := p
      simp only [List.map_cons, List.mem_cons, not_or] at h
      unfold dget
      rw [if_neg h.1]
      exact ih h.2

/-- Any property holding for the default and for every value of the dict
whose key could be looked up holds for the lookup result. -/
theorem dget_forall_ne (P : Json → Prop) (l : List (String × Json)) (k : String) (d : Json)
    (hd : P d) (hl : ∀ p ∈ l, p.1 = k → P p.2) : P (dget l k d) := by
  induction l with
  | nil => exact hd
  | cons p rest ih =>
      obtain ⟨k', v⟩ := p
      unfold dget
      by_cases hk : k = k'
      · rw [if_pos hk]
        exact hl (k', v) (List.mem_cons_self _ _) hk.symm
      · rw [if_neg hk]
        exact ih (fun p hp => hl p (List.mem_cons_of_mem _ hp))

/-- One trial.py tool step leaves the iteration counter unchanged. -/
theorem trial_toolStep_iteration (demo : Bool) (content : List ContentBlock)
    (s : Trial.LoopSt) (tb : ToolUse) :
    (Trial.toolStep demo content s tb).iteration = s.iteration := rfl

/-- The trial.py inner for-loop leaves the iteration counter unchanged. -/
theorem trial_foldl_iteration (demo : Bool) (content : List ContentBlock) :
    ∀ (l : List ToolUse) (s : Trial.LoopSt),
      (l.foldl (Trial.toolStep demo content) s).iteration = s.iteration := by
  intro l
  induction l with
  | nil => intro s; rfl
  | cons tb rest ih =>
      intro s
      simp only [List.foldl_cons]
      rw [ih, trial_toolStep_iteration]

/-- Iteration preservation of the trial.py tool-block runner. -/
theorem trial_runToolBlocks_iteration (demo : Bool) (r : ModelResponse) (s : Trial.LoopSt) :
    (Trial.runToolBlocks demo r s).iteration = s.iteration :=
  trial_foldl_iteration demo r.content (toolUses r.content) s

/-- Iteration count of the trial.py loop: with `k` the first model call that
does not request tools, the loop performs exactly `min k 5` iterations. -/
theorem trial_loopGo_count (resp : Nat → ModelResponse) (demo : Bool) (k : Nat)
    (hB : ∀ j, j < k → (resp j).stop_reason = "tool_use")
    (hA : k < 5 → (resp k).stop_reason ≠ "tool_use") :
    ∀ (fuel : Nat), ∀ (i : Nat) (s : Trial.LoopSt), fuel + i = 5 → i ≤ k → s.iteration = i →
      ∃ r2 s2, Trial.loopGo (okStream resp) demo fuel (i + 1) (resp i) s = .ok (r2, s2) ∧
        s2.iteration = min k 5 := by
  intro fuel
  induction fuel with
  | zero =>
      intro i s h5 hik hsi
      refine ⟨resp i, s, rfl, ?_⟩
      omega
  | succ n ih =>
      intro i s h5 hik hsi
      by_cases hik' : i < k
      · have hgood := hB i hik'
        unfold Trial.loopGo
        rw [if_pos hgood]
        show ∃ r2 s2, Trial.loopGo (okStream resp) demo n (i + 1 + 1) (resp (i + 1)) _ = .ok (r2, s2) ∧ _
        apply ih (i + 1) _ (by omega) (by omega)
        simp only [trial_runToolBlocks_iteration, hsi]
      · have hik2 : i = k := by omega
        have hbad := hA (by omega)
        unfold Trial.loopGo
        rw [if_neg (hik2 ▸ hbad)]
        exact ⟨resp i, s, rfl, by omega⟩

/-- Iteration count of the V1.streamlit.py loop: with every earlier response
requesting tools (and carrying a tool-use block, so the `break` is not
taken), the loop performs exactly `min k 5` iterations. -/
theorem v1_loopGo_count (resp : Nat → ModelResponse) (k : Nat)
    (hB : ∀ j, j < k → (resp j).stop_reason = "tool_use" ∧ hasToolUse (resp j).content = true)
    (hA : k < 5 → (resp k).stop_reason ≠ "tool_use") :
    ∀ (fuel : Nat), ∀ (i : Nat) (s : V1.LoopSt), fuel + i = 5 → i ≤ k → s.iteration = i →
      ∃ r2 s2, V1.loopGo (okStream resp) fuel (i + 1) (resp i) s = .ok (r2, s2) ∧
        s2.iteration = min k 5 := by
  intro fuel
  induction fuel with
  | zero =>
      intro i s h5 hik hsi
      refine ⟨resp i, s, rfl, ?_⟩
      omega
  | succ n ih =>
      intro i s h5 hik hsi
      by_cases hik' : i < k
      · obtain ⟨hst, htu⟩ := hB i hik'
        obtain ⟨tu, htu'⟩ := Option.isSome_iff_exists.mp htu
        unfold V1.loopGo
        rw [if_pos hst, htu']
        show ∃ r2 s2, V1.loopGo (okStream resp) n (i + 1 + 1) (resp (i + 1)) _ = .ok (r2, s2) ∧ _
        apply ih (i + 1) _ (by omega) (by omega)
        simp only [hsi]
      · have hik2 : i = k := by omega
        have hbad := hA (by omega)
        unfold V1.loopGo
        rw [if_neg (hik2 ▸ hbad)]
        exact ⟨resp i, s, rfl, by omega⟩

/-- Iteration count of the Marketingapp.py loop: cap 8 instead of 5. -/
theorem mapp_loopGo_count (resp : Nat → ModelResponse) (now : String) (k : Nat)
    (hB : ∀ j, j < k → (resp j).stop_reason = "tool_use")
    (hA : k < 8 → (resp k).stop_reason ≠ "tool_use") :
    ∀ (fuel : Nat), ∀ (i : Nat) (s : MApp.LoopSt), fuel + i = 8 → i ≤ k → s.iteration = i →
      ∃ r2 s2, MApp.loopGo (okStream resp) now fuel (i + 1) (resp i) s = .ok (r2, s2) ∧
        s2.iteration = min k 8 := by
  intro fuel
  induction fuel with
  | zero =>
      intro i s h8 hik hsi
      refine ⟨resp i, s, rfl, ?_⟩
      omega
  | succ n ih =>
      intro i s h8 hik hsi
      by_cases hik' : i < k
      · have hgood := hB i hik'
        unfold MApp.loopGo
        rw [if_pos hgood]
        show ∃ r2 s2, MApp.loopGo (okStream resp) now n (i + 1 + 1) (resp (i + 1)) _ = .ok (r2, s2) ∧ _
        apply ih (i + 1) _ (by omega) (by omega)
        simp only [hsi]
      · have hik2 : i = k := by omega
        have hbad := hA (by omega)
        unfold MApp.loopGo
        rw [if_neg (hik2 ▸ hbad)]
        exact ⟨resp i, s, rfl, by omega⟩

/-- C1: for every sequence of model responses in which each response signals
that tool calls are needed (stop_reason "tool_use", carrying a tool-use
block), the orchestration loop terminates in at most the configured maximum
number of round-trips — 5 in trial.py and V1.streamlit.py, 8 in
Marketingapp.py — never fewer than the rounds actually needed when the
model finishes earlier (at call index `k`), never more: the loop performs
exactly `min k cap` iterations. Taking `k ≥ 8` covers the all-tool-use case. -/
theorem claim_C1_round_trip_bound (resp : Nat → ModelResponse) (k : Nat)
    (demo : Bool) (api_messages : List Message) (input now : String)
    (hB : ∀ j, j < k → (resp j).stop_reason = "tool_use" ∧ hasToolUse (resp j).content = true)
    (hA : k < 8 → (resp k).stop_reason ≠ "tool_use") :
    Trial.itersOf (Trial.cycle (okStream resp) demo api_messages input) = min k 5 ∧
    V1.itersOf (V1.cycle (okStream resp) input) = min k 5 ∧
    MApp.itersOf (MApp.cycle (okStream resp) now input) = min k 8 := by
  refine ⟨?_, ?_, ?_⟩
  · obtain ⟨r2, s2, heq, hit⟩ :=
      trial_loopGo_count resp demo k (fun j hj => (hB j hj).1)
        (fun h5 => hA (by omega)) 5 0
        ⟨lastN 10 api_messages ++ [Message.user input], [], none, none, 0,
         [lastN 10 api_messages ++ [Message.user input]]⟩ (by omega) (by omega) rfl
    unfold Trial.cycle
    show Trial.itersOf (match Trial.loopGo (okStream resp) demo 5 1 (resp 0) _ with
      | .error e => .error e
      | .ok (rF, s) => _) = min k 5
    rw [heq]
    exact hit
  · obtain ⟨r2, s2, heq, hit⟩ :=
      v1_loopGo_count resp k hB (fun h5 => hA (by omega)) 5 0
        ⟨[Message.user input], 0, [[Message.user input]]⟩ (by omega) (by omega) rfl
    unfold V1.cycle
    show V1.itersOf (match V1.loopGo (okStream resp) 5 1 (resp 0) _ with
      | .error e => .error e
      | .ok (rF, s) => _) = min k 5
    rw [heq]
    exact hit
  · obtain ⟨r2, s2, heq, hit⟩ :=
      mapp_loopGo_count resp now k (fun j hj => (hB j hj).1) hA 8 0
        ⟨[Message.user input], [], none, none, 0, [[Message.user input]]⟩ (by omega) (by omega) rfl
    unfold MApp.cycle
    show MApp.itersOf (match MApp.loopGo (okStream resp) now 8 1 (resp 0) _ with
      | .error e => .error e
      | .ok (rF, s) => _) = min k 8
    rw [heq]
    exact hit

/-- C1 witness: with a model that always requests `get_conversion_funnel`,
the three loops run exactly 5, 5 and 8 iterations. -/
theorem claim_C1_witness :
    Trial.itersOf (Trial.cycle (okStream alwaysTool) true [] "q") = 5 ∧
    V1.itersOf (V1.cycle (okStream alwaysTool) "q") = 5 ∧
    MApp.itersOf (MApp.cycle (okStream alwaysTool) "T" "q") = 8 := by
  have h := claim_C1_round_trip_bound alwaysTool 8 true [] "q" "T"
    (fun j _ => ⟨rfl, rfl⟩) (fun h8 => absurd h8 (by decide))
  simpa using h

/-- Tool-result ids distribute over message-list concatenation. -/
theorem toolResultIds_append (a b : List Message) :
    toolResultIds (a ++ b) = toolResultIds a ++ toolResultIds b := by
  simp [toolResultIds]

/-- The trial.py inner for-loop appends exactly one tool result per tool-use
block, in block order. -/
theorem trial_foldl_ids (demo : Bool) (content : List ContentBlock) :
    ∀ (l : List ToolUse) (s : Trial.LoopSt),
      toolResultIds ((l.foldl (Trial.toolStep demo content) s).api_msgs)
        = toolResultIds s.api_msgs ++ l.map ToolUse.id := by
  intro l
  induction l with
  | nil => intro s; simp
  | cons tb rest ih =>
      intro s
      simp only [List.foldl_cons, List.map_cons]
      rw [ih]
      have h1 : (Trial.toolStep demo content s tb).api_msgs
          = s.api_msgs ++ [Message.assistant content, Message.toolResults [⟨tb.id,
              if demo then Trial.get_mock_data tb.name (some tb.input)
              else Trial.get_mock_data tb.name (some tb.input)⟩]] := rfl
      rw [h1, toolResultIds_append]
      simp [toolResultIds, Message.assistant, Message.toolResults]

/-- The Marketingapp.py batch builder collects exactly one result per
tool-use block, in block order. -/
theorem mapp_foldl_ids (now : String) :
    ∀ (l : List ToolUse) (acc : MApp.BatchAcc),
      ((l.foldl (MApp.toolStep now) acc).tool_results).map ToolResultEntry.tool_use_id
        = acc.tool_results.map ToolResultEntry.tool_use_id ++ l.map ToolUse.id := by
  intro l
  induction l with
  | nil => intro acc; simp
  | cons tu rest ih =>
      intro acc
      simp only [List.foldl_cons, List.map_cons]
      rw [ih]
      simp [MApp.toolStep]

/-- C2 (amended): in trial.py and Marketingapp.py, each ToolInvocationRequest
of a model response receives exactly one corresponding ToolResult before the
next model call is issued — the result batch correlates 1:1 with the
requests by id, in request order, with none unresolved and none spurious.
In V1.streamlit.py only the FIRST tool-use request of a response is
resolved: one loop iteration appends exactly one result, for the handled
block's id. -/
theorem claim_C2_request_result_correlation (r rv : ModelResponse) (demo : Bool)
    (now : String) (s : Trial.LoopSt) (tc : List String) (ln : Option String)
    (ld : Option Json) (msgs : List Message) (tu : ToolUse)
    (_htu : firstToolUse rv.content = some tu) :
    toolResultIds ((Trial.runToolBlocks demo r s).api_msgs)
      = toolResultIds s.api_msgs ++ (toolUses r.content).map ToolUse.id ∧
    ((MApp.runToolBatch now r ⟨tc, ln, ld, []⟩).tool_results).map ToolResultEntry.tool_use_id
      = (toolUses r.content).map ToolUse.id ∧
    toolResultIds (V1.stepMessages msgs rv tu) = toolResultIds msgs ++ [tu.id] := by
  refine ⟨trial_foldl_ids demo r.content (toolUses r.content) s, ?_, ?_⟩
  · rw [MApp.runToolBatch, mapp_foldl_ids]
    simp
  · rw [V1.stepMessages, toolResultIds_append]
    simp [toolResultIds, Message.assistant, Message.toolResults]

/-- C2 witness: at a two-request response, trial.py and Marketingapp.py
resolve both ids in order; V1.streamlit.py appends one result for the first. -/
theorem claim_C2_witness :
    toolResultIds ((Trial.runToolBlocks true twoToolResp ⟨[], [], none, none, 0, []⟩).api_msgs)
      = toolResultIds ([] : List Message) ++ (toolUses twoToolResp.content).map ToolUse.id ∧
    ((MApp.runToolBatch "T" twoToolResp ⟨[], none, none, []⟩).tool_results).map ToolResultEntry.tool_use_id
      = (toolUses twoToolResp.content).map ToolUse.id ∧
    toolResultIds (V1.stepMessages [] twoToolResp ⟨"idA", "q1_pages_never_viewed", []⟩)
      = toolResultIds ([] : List Message) ++ ["idA"] :=
  claim_C2_request_result_correlation twoToolResp twoToolResp true "T"
    ⟨[], [], none, none, 0, []⟩ [] none none [] ⟨"idA", "q1_pages_never_viewed", []⟩ rfl

/-- C2 counterexample: V1.streamlit.py leaves the second request of a
two-request response unresolved — the message list submitted to the next
model call carries one result for "idA" and none for "idB", although the
processed response requested both. -/
theorem claim_C2_counterexample :
    (toolUses twoToolResp.content).map ToolUse.id = ["idA", "idB"] ∧
    countToolResultsFor ((V1.subsOf (V1.cycle (okStream twoToolStream) "q")).getD 1 []) "idA" = 1 ∧
    countToolResultsFor ((V1.subsOf (V1.cycle (okStream twoToolStream) "q")).getD 1 []) "idB" = 0 ∧
    (V1.subsOf (V1.cycle (okStream twoToolStream) "q")).length = 2 :=
  ⟨rfl, rfl, rfl, rfl⟩

/-- One trial.py tool step leaves the submission log unchanged. -/
theorem trial_foldl_submissions (demo : Bool) (content : List ContentBlock) :
    ∀ (l : List ToolUse) (s : Trial.LoopSt),
      (l.foldl (Trial.toolStep demo content) s).submissions = s.submissions := by
  intro l
  induction l with
  | nil => intro s; rfl
  | cons tb rest ih => intro s; simp only [List.foldl_cons]; rw [ih]; rfl

/-- Submission-log preservation of the trial.py tool-block runner. -/
theorem trial_runToolBlocks_submissions (demo : Bool) (r : ModelResponse) (s : Trial.LoopSt) :
    (Trial.runToolBlocks demo r s).submissions = s.submissions :=
  trial_foldl_submissions demo r.content (toolUses r.content) s

/-- On a never-failing oracle the trial.py loop returns normally and only
appends to the submission log, so its first entry is preserved. -/
theorem trial_loopGo_ok_head (resp : Nat → ModelResponse) (demo : Bool) :
    ∀ (fuel c : Nat) (r : ModelResponse) (s : Trial.LoopSt), s.submissions ≠ [] →
      ∃ r2 s2, Trial.loopGo (okStream resp) demo fuel c r s = .ok (r2, s2) ∧
        s2.submissions.head? = s.submissions.head? := by
  intro fuel
  induction fuel with
  | zero => intro c r s _; exact ⟨r, s, rfl, rfl⟩
  | succ n ih =>
      intro c r s hne
      by_cases h : r.stop_reason = "tool_use"
      · unfold Trial.loopGo
        rw [if_pos h]
        dsimp only [okStream]
        obtain ⟨r2, s2, heq, hh⟩ := ih (c + 1) (resp c)
          { Trial.runToolBlocks demo r { s with iteration := s.iteration + 1 } with
            submissions := (Trial.runToolBlocks demo r { s with iteration := s.iteration + 1 }).submissions
              ++ [(Trial.runToolBlocks demo r { s with iteration := s.iteration + 1 }).api_msgs] }
          (by simp)
        refine ⟨r2, s2, heq, ?_⟩
        rw [hh]
        dsimp only
        rw [trial_runToolBlocks_submissions]
        dsimp only
        obtain ⟨a, l, hal⟩ := List.exists_cons_of_ne_nil hne
        rw [hal]
        simp
      · unfold Trial.loopGo
        rw [if_neg h]
        exact ⟨r, s, rfl, rfl⟩

/-- On a never-failing oracle the Marketingapp.py loop returns normally and
only appends to the submission log. -/
theorem mapp_loopGo_ok_head (resp : Nat → ModelResponse) (now : String) :
    ∀ (fuel c : Nat) (r : ModelResponse) (s : MApp.LoopSt), s.submissions ≠ [] →
      ∃ r2 s2, MApp.loopGo (okStream resp) now fuel c r s = .ok (r2, s2) ∧
        s2.submissions.head? = s.submissions.head? := by
  intro fuel
  induction fuel with
  | zero => intro c r s _; exact ⟨r, s, rfl, rfl⟩
  | succ n ih =>
      intro c r s hne
      by_cases h : r.stop_reason = "tool_use"
      · unfold MApp.loopGo
        rw [if_pos h]
        dsimp only [okStream]
        obtain ⟨r2, s2, heq, hh⟩ := ih (c + 1) (resp c)
          ⟨s.messages ++ [Message.assistant r.content,
             Message.toolResults (MApp.runToolBatch now r
               ⟨s.tools_called, s.last_tool_name, s.last_tool_data, []⟩).tool_results],
           (MApp.runToolBatch now r ⟨s.tools_called, s.last_tool_name, s.last_tool_data, []⟩).tools_called,
           (MApp.runToolBatch now r ⟨s.tools_called, s.last_tool_name, s.last_tool_data, []⟩).last_tool_name,
           (MApp.runToolBatch now r ⟨s.tools_called, s.last_tool_name, s.last_tool_data, []⟩).last_tool_data,
           s.iteration + 1,
           s.submissions ++ [s.messages ++ [Message.assistant r.content,
             Message.toolResults (MApp.runToolBatch now r
               ⟨s.tools_called, s.last_tool_name, s.last_tool_data, []⟩).tool_results]]⟩
          (by simp)
        refine ⟨r2, s2, heq, ?_⟩
        rw [hh]
        dsimp only
        obtain ⟨a, l, hal⟩ := List.exists_cons_of_ne_nil hne
        rw [hal]
        simp
      · unfold MApp.loopGo
        rw [if_neg h]
        exact ⟨r, s, rfl, rfl⟩

/-- On a never-failing oracle the V1.streamlit.py loop returns normally and
only appends to the submission log. -/
theorem v1_loopGo_ok_head (resp : Nat → ModelResponse) :
    ∀ (fuel c : Nat) (r : ModelResponse) (s : V1.LoopSt), s.submissions ≠ [] →
      ∃ r2 s2, V1.loopGo (okStream resp) fuel c r s = .ok (r2, s2) ∧
        s2.submissions.head? = s.submissions.head? := by
  intro fuel
  induction fuel with
  | zero => intro c r s _; exact ⟨r, s, rfl, rfl⟩
  | succ n ih =>
      intro c r s hne
      by_cases h : r.stop_reason = "tool_use"
      · unfold V1.loopGo
        rw [if_pos h]
        cases htu : firstToolUse r.content with
        | none => exact ⟨r, _, rfl, rfl⟩
        | some tu =>
            dsimp only [okStream]
            obtain ⟨r2, s2, heq, hh⟩ := ih (c + 1) (resp c)
              ⟨V1.stepMessages s.messages r tu,
               s.iteration + 1,
               s.submissions ++ [V1.stepMessages s.messages r tu]⟩
              (by simp)
            refine ⟨r2, s2, heq, ?_⟩
            rw [hh]
            dsimp only
            obtain ⟨a, l, hal⟩ := List.exists_cons_of_ne_nil hne
            rw [hal]
            simp
      · unfold V1.loopGo
        rw [if_neg h]
        exact ⟨r, s, rfl, rfl⟩

/-- C7 (amended): trial.py carries the API log across queries and trims it
ONCE at the start of each cycle — the first model call of a cycle submits
exactly the last 10 carried messages plus the current user turn (in-loop
calls then append tool turns without re-trimming). Marketingapp.py and
V1.streamlit.py carry nothing: each cycle's first call submits only the
current user turn. -/
theorem claim_C7_context_window (resp : Nat → ModelResponse) (demo : Bool)
    (api_messages : List Message) (input now : String) :
    (Trial.subsOf (Trial.cycle (okStream resp) demo api_messages input)).head?
      = some (lastN 10 api_messages ++ [Message.user input]) ∧
    (MApp.subsOf (MApp.cycle (okStream resp) now input)).head? = some [Message.user input] ∧
    (V1.subsOf (V1.cycle (okStream resp) input)).head? = some [Message.user input] := by
  refine ⟨?_, ?_, ?_⟩
  · obtain ⟨r2, s2, heq, hh⟩ := trial_loopGo_ok_head resp demo 5 1 (resp 0)
      ⟨lastN 10 api_messages ++ [Message.user input], [], none, none, 0,
       [lastN 10 api_messages ++ [Message.user input]]⟩ (by simp)
    unfold Trial.cycle
    show (Trial.subsOf (match Trial.loopGo (okStream resp) demo 5 1 (resp 0) _ with
      | .error e => .error e
      | .ok (rF, s) => _)).head? = _
    rw [heq]
    exact hh
  · obtain ⟨r2, s2, heq, hh⟩ := mapp_loopGo_ok_head resp now 8 1 (resp 0)
      ⟨[Message.user input], [], none, none, 0, [[Message.user input]]⟩ (by simp)
    unfold MApp.cycle
    show (MApp.subsOf (match MApp.loopGo (okStream resp) now 8 1 (resp 0) _ with
      | .error e => .error e
      | .ok (rF, s) => _)).head? = _
    rw [heq]
    exact hh
  · obtain ⟨r2, s2, heq, hh⟩ := v1_loopGo_ok_head resp 5 1 (resp 0)
      ⟨[Message.user input], 0, [[Message.user input]]⟩ (by simp)
    unfold V1.cycle
    show (V1.subsOf (match V1.loopGo (okStream resp) 5 1 (resp 0) _ with
      | .error e => .error e
      | .ok (rF, s) => _)).head? = _
    rw [heq]
    exact hh

/-- C7 counterexample: with a 12-message carried log, trial.py's first call
submits 11 turns but the in-loop second call submits those 11 plus the two
appended tool turns — 13 turns, nothing discarded — so no fixed
most-recent-N window governs every call; and Marketingapp.py's first call
submits only the current question, carrying no earlier turn at all. -/
theorem claim_C7_counterexample :
    ((Trial.subsOf (Trial.cycle (okStream oneToolStream) true apiLog12 "q")).getD 0 []).length = 11 ∧
    ((Trial.subsOf (Trial.cycle (okStream oneToolStream) true apiLog12 "q")).getD 1 []).length = 13 ∧
    (Trial.subsOf (Trial.cycle (okStream oneToolStream) true apiLog12 "q")).getD 1 []
      = (Trial.subsOf (Trial.cycle (okStream oneToolStream) true apiLog12 "q")).getD 0 []
        ++ [Message.assistant tuResp.content,
            Message.toolResults [⟨"toolu_01", Trial.get_mock_data "get_conversion_funnel" (some [])⟩]] ∧
    (MApp.subsOf (MApp.cycle (okStream oneToolStream) "T" "q2")).getD 0 [] = [Message.user "q2"] :=
  ⟨rfl, rfl, rfl, rfl⟩

/-- The trial.py executor call of line 622 is the same in both branches of
the demo-mode conditional. -/
theorem trial_toolStep_demo (d1 d2 : Bool) (content : List ContentBlock)
    (s : Trial.LoopSt) (tb : ToolUse) :
    Trial.toolStep d1 content s tb = Trial.toolStep d2 content s tb := by
  simp [Trial.toolStep]

/-- The trial.py tool-block runner is independent of demo_mode. -/
theorem trial_runToolBlocks_demo (d1 d2 : Bool) (r : ModelResponse) (s : Trial.LoopSt) :
    Trial.runToolBlocks d1 r s = Trial.runToolBlocks d2 r s := by
  unfold Trial.runToolBlocks
  induction toolUses r.content generalizing s with
  | nil => rfl
  | cons tb rest ih =>
      simp only [List.foldl_cons]
      rw [trial_toolStep_demo d1 d2]
      exact ih _

/-- The trial.py tool-use loop is independent of demo_mode. -/
theorem trial_loopGo_demo (respond : Nat → Except String ModelResponse) (d1 d2 : Bool) :
    ∀ (fuel c : Nat) (r : ModelResponse) (s : Trial.LoopSt),
      Trial.loopGo respond d1 fuel c r s = Trial.loopGo respond d2 fuel c r s := by
  intro fuel
  induction fuel with
  | zero => intro c r s; rfl
  | succ n ih =>
      intro c r s
      unfold Trial.loopGo
      by_cases h : r.stop_reason = "tool_use"
      · simp only [h, if_true]
        rw [trial_runToolBlocks_demo d1 d2]
        cases respond c with
        | error e => rfl
        | ok r2 => exact ih _ _ _
      · simp [h]

/-- C10: every ToolResult — indeed the whole cycle outcome — is independent
of the demo-mode flag: two trial.py runs differing only in demo_mode produce
identical results, because the ternary on line 622 calls the same mock-data
function in both branches (Marketingapp.py's executor call at line 1368 does
not consult any flag at all). -/
theorem claim_C10_demo_mode_independence (respond : Nat → Except String ModelResponse)
    (d1 d2 : Bool) (api_messages : List Message) (input : String) :
    Trial.cycle respond d1 api_messages input = Trial.cycle respond d2 api_messages input := by
  unfold Trial.cycle
  cases respond 0 with
  | error e => rfl
  | ok r0 =>
      dsimp only
      rw [trial_loopGo_demo respond d1 d2]

/-- C3 (amended): when a cycle fails (any exception from a model call), the
carried API log of trial.py is unchanged — it is committed all-or-nothing
at line 651 — but the display log of both trial.py and Marketingapp.py keeps
the user turn appended before the try block, so after a failure the display
log ends in a user turn with no matching assistant turn. -/
theorem claim_C3_failure_state (respond : Nat → Except String ModelResponse)
    (demo : Bool) (api_key : String) (pre : Trial.Session) (preM : MApp.Session)
    (input now e1 e2 : String)
    (hkey : api_key ≠ "")
    (h1 : Trial.cycle respond demo pre.api_messages input = .error e1)
    (h2 : MApp.cycle respond now input = .error e2) :
    Trial.processQuestion respond demo api_key pre input
      = ⟨pre.messages ++ [⟨"user", input⟩], pre.api_messages⟩ ∧
    MApp.processInput respond now api_key preM input
      = ⟨preM.messages ++ [⟨"user", input⟩]⟩ := by
  constructor
  · unfold Trial.processQuestion
    rw [if_neg hkey, h1]
  · unfold MApp.processInput
    rw [if_neg hkey, h2]

/-- C3 witness: a failing oracle leaves the logs at exactly the dangling
user turn and the previous API log. -/
theorem claim_C3_witness :
    Trial.processQuestion failStream true "sk-ant" ⟨[], []⟩ "q"
      = ⟨[⟨"user", "q"⟩], []⟩ ∧
    MApp.processInput failStream "T" "sk-ant" ⟨[]⟩ "q" = ⟨[⟨"user", "q"⟩]⟩ :=
  claim_C3_failure_state failStream true "sk-ant" ⟨[], []⟩ ⟨[]⟩ "q" "T"
    "Connection error" "Connection error" (by decide) rfl rfl

/-- C3 counterexample: after a failing cycle the conversation state is NOT
equal to the pre-cycle state — the display log gained a user turn with no
terminal assistant turn. -/
theorem claim_C3_counterexample :
    Trial.processQuestion failStream true "sk-ant" ⟨[], []⟩ "q" ≠ (⟨[], []⟩ : Trial.Session) ∧
    (Trial.processQuestion failStream true "sk-ant" ⟨[], []⟩ "q").messages = [⟨"user", "q"⟩] := by
  constructor
  · intro h
    rw [show Trial.processQuestion failStream true "sk-ant" ⟨[], []⟩ "q"
          = ⟨[⟨"user", "q"⟩], []⟩ from rfl] at h
    simp [Trial.Session.mk.injEq] at h
  · rfl

/-- C4 (amended): calling the executor with a tool name outside the Tool
Registry does not throw (the dispatch is total) and returns the file's
fixed fallback payload — which carries NO is_error flag:
trial.py `{"data": [{"info": "Data retrieved"}]}`,
Marketingapp.py `{"data": [], "row_count": 0}`,
V1.streamlit.py `[{"status": "executed"}]`. -/
theorem claim_C4_unknown_tool (name : String) (input : Option (List (String × Json)))
    (input2 : List (String × Json)) (now : String)
    (h1 : name ∉ Trial.TOOLS.map ToolSpec.name)
    (h2 : name ∉ MApp.TOOLS.map ToolSpec.name)
    (h3 : name ∉ V1.TOOLS.map ToolSpec.name) :
    Trial.get_mock_data name input = .obj [("data", .arr [.obj [("info", .str "Data retrieved")]])] ∧
    MApp.get_mock_data name input2 now = .obj [("data", .arr []), ("row_count", .num 0)] ∧
    V1.get_mock_data name = .arr [.obj [("status", .str "executed")]] := by
  refine ⟨?_, ?_, ?_⟩
  · apply dget_not_mem
    rw [show (Trial.mock input).map Prod.fst =
        ["get_b2b_marketing_summary", "get_lead_metrics", "get_intent_signals",
         "get_account_360_view", "get_conversion_funnel", "get_high_bounce_pages",
         "get_pages_to_sunset", "get_accounts_to_reach_out", "get_paid_media_performance",
         "get_channel_attribution", "detect_marketing_anomalies", "generate_campaign_brief",
         "get_pathfactory_engagement"] from rfl]
    intro hmem
    apply h1
    fin_cases hmem <;> decide
  · apply dget_not_mem
    rw [show (MApp.mock input2 now).map Prod.fst =
        ["get_lead_metrics", "get_conversion_funnel", "get_funnel_summary",
         "get_paid_media_performance", "get_intent_signals", "get_account_360_view",
         "get_channel_attribution", "generate_campaign_brief", "detect_marketing_anomalies"] from rfl]
    intro hmem
    apply h2
    fin_cases hmem <;> decide
  · apply dget_not_mem
    rw [show V1.mock.map Prod.fst =
        ["q1_pages_never_viewed", "q2_forms_high_error_rate", "q3_high_bounce_pages",
         "q4_high_engagement_accounts", "q5_converted_accounts", "q6_paid_media_data",
         "q7_account_conversion_tracking", "q8_exit_pages"] from rfl]
    intro hmem
    apply h3
    fin_cases hmem <;> decide

/-- C4 witness: a concrete unregistered name hits all three fallbacks. -/
theorem claim_C4_witness :
    Trial.get_mock_data "get_unknown_tool" none
      = .obj [("data", .arr [.obj [("info", .str "Data retrieved")]])] ∧
    MApp.get_mock_data "get_unknown_tool" [] "T"
      = .obj [("data", .arr []), ("row_count", .num 0)] ∧
    V1.get_mock_data "get_unknown_tool" = .arr [.obj [("status", .str "executed")]] :=
  claim_C4_unknown_tool "get_unknown_tool" none [] "T" (by decide) (by decide) (by decide)

/-- C4 counterexample: the fallback payloads carry no is_error field at
all, so the claimed `is_error = true` ToolResult is never produced. -/
theorem claim_C4_counterexample :
    hasField (Trial.get_mock_data "get_unknown_tool" none) "is_error" = false ∧
    hasField (MApp.get_mock_data "get_unknown_tool" [] "T") "is_error" = false ∧
    V1.get_mock_data "get_unknown_tool" = .arr [.obj [("status", .str "executed")]] :=
  ⟨rfl, rfl, rfl⟩

/-- C5 (amended): the final answer of trial.py and Marketingapp.py is never
the empty string — an empty text join is replaced by a fixed fallback. In
V1.streamlit.py the fallback "No response" applies only when NO content
block has a text attribute; the extraction takes the first text block
verbatim, so an empty first text block passes through. -/
theorem claim_C5_nonempty_answer (c1 c2 c3 : List ContentBlock)
    (h : c3.filterMap ContentBlock.textOf = []) :
    Trial.extractAnswer c1 ≠ "" ∧
    MApp.extractAnswer c2 ≠ "" ∧
    V1.extractAnswer c3 = "No response" := by
  refine ⟨?_, ?_, ?_⟩
  · unfold Trial.extractAnswer pyOrString
    by_cases hj : String.join (c1.filterMap ContentBlock.textOf) = ""
    · rw [if_pos hj]; decide
    · rw [if_neg hj]; exact hj
  · unfold MApp.extractAnswer
    dsimp only
    by_cases hj : String.join (c2.filterMap ContentBlock.textOf) = ""
    · rw [if_pos hj]; decide
    · rw [if_neg hj]; exact hj
  · unfold V1.extractAnswer
    rw [h]
    rfl

/-- C5 witness: a plain text response passes through in trial.py and
Marketingapp.py; a tool-use-only response yields "No response" in V1. -/
theorem claim_C5_witness :
    Trial.extractAnswer [.text "Here are the numbers."] ≠ "" ∧
    MApp.extractAnswer [.text "Here are the numbers."] ≠ "" ∧
    V1.extractAnswer [.toolUse "idA" "q1_pages_never_viewed" []] = "No response" :=
  claim_C5_nonempty_answer [.text "Here are the numbers."]
    [.text "Here are the numbers."] [.toolUse "idA" "q1_pages_never_viewed" []] rfl

/-- C5 counterexample: a terminal V1.streamlit.py response whose only
content block is an empty text block delivers the empty string as the
final answer, into the session log. -/
theorem claim_C5_counterexample :
    emptyTextResp.stop_reason = "end_turn" ∧
    V1.answerOf (V1.cycle (okStream (fun _ => emptyTextResp)) "q") = some "" ∧
    (V1.processInput (okStream (fun _ => emptyTextResp)) "sk-ant" ⟨[]⟩ "q").messages
      = [⟨"user", "q"⟩, ⟨"assistant", ""⟩] :=
  ⟨rfl, rfl, rfl⟩

/-- C6 (amended): the account-360 executor echoes the requested entity
identity verbatim into the payload's identity field when the argument is
passed under the tool's declared parameter name — `account_name` in
trial.py (identity field `company`), `company_name` in Marketingapp.py
(identity field `company_name`) — regardless of the static template behind
the rest of the payload. -/
theorem claim_C6_identity_echo (v : Json) (now : String) :
    firstDataRowField (Trial.get_mock_data "get_account_360_view"
        (some [("account_name", v)])) "company" = some v ∧
    firstDataRowField (MApp.get_mock_data "get_account_360_view"
        [("company_name", v)] now) "company_name" = some v :=
  ⟨rfl, rfl⟩

/-- C6 counterexample: calling Marketingapp.py's executor with the argument
named `account_name = "Acme Corp"` (as the claim states it) does NOT bind
the identity — the payload's identity field stays at the template default
"Goldman Sachs". -/
theorem claim_C6_counterexample :
    firstDataRowField (MApp.get_mock_data "get_account_360_view"
        [("account_name", .str "Acme Corp")] "2024-12-18T00:00:00") "company_name"
      = some (.str "Goldman Sachs") ∧
    (Json.str "Goldman Sachs") ≠ .str "Acme Corp" := by
  exact ⟨rfl, by simp⟩

/-- C8 (amended): trial.py's `get_conversion_funnel` fixture returns SEVEN
ordered stage rows — Visitors 45000, Known Leads 8500, Engaged 3200,
MQLs 425, SQLs 156, Opportunities 89, Closed Won 28 — and Result Projection
yields exactly one funnel chart whose stage sequence is the `data` column
in row order. -/
theorem claim_C8_funnel_projection (input : Option (List (String × Json))) :
    getField (Trial.get_mock_data "get_conversion_funnel" input) "data"
      = some (.arr funnelDataRows) ∧
    ((Trial.conversionFunnelFigures (Trial.get_mock_data "get_conversion_funnel" input)).filter
        (fun f => f.kind == "funnel")).length = 1 ∧
    (Trial.conversionFunnelFigures (Trial.get_mock_data "get_conversion_funnel" input)).head?
      = some ⟨"🔄 Funnel", "funnel",
          [⟨"", col funnelDataRows "count", col funnelDataRows "stage"⟩]⟩ ∧
    col funnelDataRows "stage"
      = [.str "Visitors", .str "Known Leads", .str "Engaged", .str "MQLs",
         .str "SQLs", .str "Opportunities", .str "Closed Won"] :=
  ⟨rfl, rfl, rfl, rfl⟩

/-- C8 counterexample: the funnel fixture has 7 rows, not the claimed 5, and
its first stage is "Visitors" with count 45000, not "Leads" with 1245. -/
theorem claim_C8_counterexample :
    getField (Trial.get_mock_data "get_conversion_funnel" none) "data"
      = some (.arr funnelDataRows) ∧
    funnelDataRows.length = 7 ∧
    funnelDataRows.length ≠ 5 ∧
    (col funnelDataRows "stage").getD 0 Json.null = .str "Visitors" ∧
    (col funnelDataRows "count").getD 0 Json.null = .num 45000 :=
  ⟨rfl, rfl, by decide, rfl, rfl⟩

/-- C9 (amended): for every tool name — registered or not — the payload's
`data` field, when present, is an ordered sequence of uniformly-shaped
records (every row an object with the same key set). This holds
unconditionally in trial.py (whose `generate_campaign_brief` data is a
uniform single-row list) and for every Marketingapp.py tool except
`generate_campaign_brief`, whose `data` field is one nested summary object,
not a sequence. V1.streamlit.py payloads are themselves uniform row lists. -/
theorem claim_C9_uniform_rows (name : String) (input : Option (List (String × Json)))
    (input2 : List (String × Json)) (now : String) :
    uniformDataB (Trial.get_mock_data name input) = true ∧
    (name ≠ "generate_campaign_brief" →
      uniformDataB (MApp.get_mock_data name input2 now) = true) ∧
    rowsUniform (asArr (V1.get_mock_data name)) = true := by
  refine ⟨?_, ?_, ?_⟩
  · apply dget_forall_ne (fun j => uniformDataB j = true)
    · rfl
    · intro p hp _
      fin_cases hp <;> rfl
  · intro h
    apply dget_forall_ne (fun j => uniformDataB j = true)
    · rfl
    · intro p hp hpk
      fin_cases hp <;> first | rfl | exact absurd hpk.symm h
  · apply dget_forall_ne (fun j => rowsUniform (asArr j) = true)
    · rfl
    · intro p hp _
      fin_cases hp <;> rfl

/-- C9 witness: trial.py's `generate_campaign_brief` payload is itself a
uniform single-row list, and the lead-metrics payloads of Marketingapp.py
and V1.streamlit.py satisfy the uniform-rows contract. -/
theorem claim_C9_witness :
    uniformDataB (Trial.get_mock_data "generate_campaign_brief" none) = true ∧
    uniformDataB (MApp.get_mock_data "get_lead_metrics" [] "T") = true ∧
    rowsUniform (asArr (V1.get_mock_data "get_lead_metrics")) = true :=
  ⟨(claim_C9_uniform_rows "generate_campaign_brief" none [] "T").1,
   (claim_C9_uniform_rows "get_lead_metrics" none [] "T").2.1 (by decide),
   (claim_C9_uniform_rows "get_lead_metrics" none [] "T").2.2⟩

/-- C9 counterexample: Marketingapp.py's `generate_campaign_brief` payload
has a `data` field that is a nested object, not an ordered sequence of
records — the uniform-data contract fails on it. -/
theorem claim_C9_counterexample :
    uniformDataB (MApp.get_mock_data "generate_campaign_brief" [] "2024-12-18T00:00:00") = false ∧
    getField (MApp.get_mock_data "generate_campaign_brief" [] "2024-12-18T00:00:00") "data"
      = some (.obj [("summary", .obj [("high_intent_accounts", .num 47),
          ("recommended_budget", .num 25000), ("target_mqls", .num 85)])]) :=
  ⟨rfl, rfl⟩
